import Mathlib

/-!
Verification development for the Lovers language front end: a shallow
embedding of the lexical analyzer (`Backend/Lexical/Lexer.py`), its
follow-set tables (`Backend/Syntax/token_map.py`), the structural
validator (`Backend/Lexical/error.py`) and the recursive-descent parser
(`Backend/Syntax/syntax_analyzer.py`), together with theorems settling
the specification claims.

Machine characters are modelled as Lean `Char`, source text as
`List Char`, Python sets of one-character strings as `List Char` with
membership, and Python dicts as pattern-matching functions returning
`Option`.  Exceptions (`LexerError`) become an explicit error
constructor carrying the message and the token list, and the scanning
loops take a fuel argument; termination with the canonical fuel is
proved separately.
-/

/-! ## Character classes (token_map.py, top) -/

/-- `alphabet = set(ascii_letters)` (token_map.py line 8). -/
def alphabetChars : List Char :=
  "abcdefghijklmnopqrstuvwxyzABCDEFGHIJKLMNOPQRSTUVWXYZ".data

/-- `digit = set(digits)` (token_map.py line 9). -/
def digitChars : List Char := "0123456789".data

/-- `alphanum = alphabet | digit` (token_map.py line 10). -/
def alphanumChars : List Char := alphabetChars ++ digitChars

/-- `ascii_printable = set(printable)` (token_map.py line 11): digits,
letters, punctuation and the whitespace characters of `string.printable`. -/
def asciiPrintableChars : List Char :=
  digitChars ++ alphabetChars ++ "!\"#$%&".data ++ [Char.ofNat 39] ++
  "()*+,-./:;<=>?@[\\]^_`".data ++ [Char.ofNat 123, Char.ofNat 124, Char.ofNat 125] ++
  "~".data ++ [' ', '\t', '\n', '\r', Char.ofNat 11, Char.ofNat 12]

/-! ## Named delimiter sets (token_map.py `set_defs`) -/

/-- `set_defs` (token_map.py lines 24-59): named follower-character sets. -/
def setDefs (name : String) : Option (List Char) :=
  match name with
  | "space_del" => some [' ', '\t', '\n']
  | "symbol_del" => some ['>', '<']
  | "arith_op" => some ['+', '-', '*', '/', '%', '<', '>']
  | "gen_op" => some ['+', '-', '*', '/', '%', '<', '>', '=', '!', '&', '|']
  | "sim_del" => some ['/', ';']
  | "same_del" => some [' ', '\t', '(']
  | "iden_del" => some ([' ', '\t', '(', ')', '[', ']'] ++
      ['+', '-', '*', '/', '%', '<', '>', '=', '!', '&', '|'])
  | "condl_del" => some ['/', ';', '(']
  | "status_del" => some [':', ',', ')', ']', Char.ofNat 125, '+', '-', '*', '/', '%',
      '=', '!', '&', '|', ';']
  | "close_brce_del" => some [',', ')', Char.ofNat 125, ';', '/']
  | "close_brck_del" => some [':', ',', '(', ')', '[', ']', Char.ofNat 125, '+', '-',
      '*', '/', '%', '=', '!', '&', '|', ';']
  | "close_paren_del" => some ['+', '-', '*', '/', '%', '<', '>', '=', '!', '&', '|',
      Char.ofNat 123, Char.ofNat 125, ';', '/']
  | "bareminimum_del" => some [':']
  | "terminator_del" => some ['/', ';']
  | "love_del" => some ['/', ';', Char.ofNat 123]
  | "give_del" => some ['/', ';', '>']
  | "express_del" => some ['/', ';', '<']
  | "boolean_del" => some ([':', ';', '+', '-', '*', '/', '%', '<', '>', '=', '!',
      '&', '|', ')', ']', Char.ofNat 125])
  | "eql_comma_del" => some ['"', '+', '-', '!', '(', Char.ofNat 123, ';', '/']
  | "more_del" => some [Char.ofNat 123, '/', ';']
  | "log_not_del" => some ['"', '-', '!', '(', '/', ';']
  | "minus_del" => some ['"', '(', '!', '/', ';']
  | "symbols_del" => some ['-', '(', '"', '!', '/', ';']
  | "open_brce_del" => some ['"', '-', '!', '(', Char.ofNat 123, Char.ofNat 125, '/', ';']
  | "open_brck_del" => some ['-', '(', ']', '/', ';']
  | "open_paren_del" => some ['"', '+', '-', '!', '(', ')', Char.ofNat 123, '/', ';']
  | "add_and_or_del" => some ['"', '-', '(', '!', '/', ';']
  | "push_del" => some ['(', '/', ';']
  | "rant_del" => some ([':', ';', ',', '+', '-', '*', '&', '|', '%', '=', '!', ')',
      '[', Char.ofNat 125, '/'])
  | "end_del" => some (alphabetChars ++ ['/', ';'])
  | "unary_del" => some [';', '+', '-', '*', '/', '%', '<', '>', '=', '!', '&', '|', ')']
  | "dear_dearest_del" => some ([':', ';', '+', '-', '*', '/', '%', '=', '!', '&', '|',
      ')', Char.ofNat 125, ']'])
  | "comeback_del" => some ([' ', '\t', '(', '/', ';'] ++ alphanumChars)
  | "comnt_del" => some [' ', '\t', '\n']
  | _ => none

/-- `resolve_set` (token_map.py lines 151-164).  The fallback case of the
source returns a singleton set holding the (multi-character) name itself;
a single character is never equal to it, so as a set of characters it is
empty. -/
def resolveSet (name : String) : List Char :=
  match name with
  | "alphabet" => alphabetChars
  | "digit" => digitChars
  | "alphanum" => alphanumChars
  | _ =>
    match setDefs name with
    | some s => s
    | none => if name = "ascii" then asciiPrintableChars else []

/-- `expand_follow` (token_map.py lines 167-174): single-character items
are taken literally, longer items are resolved as named sets. -/
def expandFollow (raw : List String) : List Char :=
  raw.flatMap (fun item => match item.data with
    | [c] => [c]
    | _ => resolveSet item)

/-- `reserved_word_follows` (token_map.py lines 64-94). -/
def reservedWordFollowsRaw (word : String) : Option (List String) :=
  match word with
  | "dear" => some ["space_del"]
  | "dearest" => some ["space_del"]
  | "rant" => some ["space_del"]
  | "status" => some ["space_del"]
  | "give" => some ["space_del", ">"]
  | "express" => some ["space_del", "<"]
  | "overshare" => some ["space_del", "("]
  | "for" => some ["space_del", "("]
  | "forever" => some ["space_del", "("]
  | "forevermore" => some ["space_del", "("]
  | "choose" => some ["space_del", "("]
  | "more" => some ["space_del", "\x7b"]
  | "phase" => some ["space_del", "digit", "\x27"]
  | "bareminimum" => some [":"]
  | "while" => some ["space_del", "("]
  | "pursue" => some ["space_del", "("]
  | "moveon" => some [";"]
  | "breakup" => some [";"]
  | "love" => some ["space_del"]
  | "periodt" => some [";"]
  | "const" => some ["space_del"]
  | "greenflag" => some [";", ":"]
  | "redflag" => some [";", ":"]
  | "boundaries" => some ["space_del"]
  | "comeback" => some [";", "alphanum"]
  | _ => none

/-- `reserved_symbol_follows` (token_map.py lines 99-138). -/
def reservedSymbolFollowsRaw (sym : String) : Option (List String) :=
  match sym with
  | "+" => some ["space_del", "alphanum", "(", "\"", ";"]
  | "-" => some ["space_del", "alphanum", "("]
  | "*" => some ["space_del", "alphanum", "("]
  | "/" => some ["space_del", "alphanum", "("]
  | "%" => some ["space_del", "alphanum", "("]
  | "=" => some ["space_del", "\"", "alphanum", "("]
  | "+=" => some ["space_del", "alphanum", "("]
  | "-=" => some ["space_del", "alphanum", "("]
  | "*=" => some ["space_del", "alphanum", "("]
  | "/=" => some ["space_del", "alphanum", "("]
  | "%=" => some ["space_del", "alphanum", "("]
  | "&&" => some ["space_del", "alphanum"]
  | "||" => some ["space_del", "alphanum"]
  | "!" => some ["space_del", "alphabet", "("]
  | "==" => some ["space_del", "alphanum"]
  | "!=" => some ["space_del", "alphanum"]
  | ">" => some ["symbol_del"]
  | "<" => some ["symbol_del"]
  | ">=" => some ["symbol_del"]
  | "<=" => some ["symbol_del"]
  | "++" => some ["space_del", "alphanum", "("]
  | "--" => some ["space_del", "alphanum", "("]
  | "(" => some ["symbol_del", "!"]
  | ")" => some ["space_del", "\x7b", "arith_op", "&", "|"]
  | "[" => some ["space_del", "alphanum"]
  | "]" => some ["space_del", "=", "<", ">"]
  | ";" => some ["space_del", "\x7d", "\t"]
  | "\"" => some ["space_del", "alphanum", "ascii"]
  | "<<" => some ["space_del", "\"", "alphanum", "("]
  | ">>" => some ["space_del", "alphabet"]
  | "/*" => some ["comnt_del"]
  | "*/" => some ["sim_del"]
  | _ => none

/-- `identifier_follows["variant_1"]` (token_map.py line 144). -/
def identifierFollowsV1 : List String :=
  ["space_del", "arith_op", "=", "&", "|", "["]

/-- `identifier_follows["variant_2"]` (token_map.py line 145). -/
def identifierFollowsV2 : List String :=
  ["space_del", "arith_op", "&", "|", "=", "]", "(", ")", ";"]

/-- `expanded_reserved_word_follows` (token_map.py lines 177-179). -/
def expandedReservedWordFollows (word : String) : Option (List Char) :=
  (reservedWordFollowsRaw word).map expandFollow

/-- `expanded_reserved_symbol_follows` (token_map.py lines 181-183). -/
def expandedReservedSymbolFollows (sym : String) : Option (List Char) :=
  (reservedSymbolFollowsRaw sym).map expandFollow

/-! ## Lexer static data (Lexer.py, top) -/

/-- `RESERVED_WORDS` (Lexer.py lines 16-42): word to (kind, cpp equivalent). -/
def reservedWords (w : String) : Option (String × String) :=
  match w with
  | "give" => some ("KEYWORD_IO_GIVE", "give")
  | "express" => some ("KEYWORD_IO_EXPRESS", "express")
  | "overshare" => some ("KEYWORD_IO_OVERSHARE", "overshare")
  | "dear" => some ("KEYWORD_TYPE_INT", "dear")
  | "dearest" => some ("KEYWORD_TYPE_FLOAT", "dearest")
  | "rant" => some ("KEYWORD_TYPE_STRING", "rant")
  | "status" => some ("KEYWORD_TYPE_BOOL", "status")
  | "forever" => some ("KEYWORD_IF", "forever")
  | "more" => some ("KEYWORD_ELSE", "more")
  | "forevermore" => some ("KEYWORD_ELSEIF", "forevermore")
  | "choose" => some ("KEYWORD_SWITCH", "choose")
  | "phase" => some ("KEYWORD_CASE", "phase")
  | "bareminimum" => some ("KEYWORD_DEFAULT", "bareminimum")
  | "for" => some ("KEYWORD_FOR", "for")
  | "while" => some ("KEYWORD_WHILE", "while")
  | "pursue" => some ("KEYWORD_DO_WHILE", "pursue")
  | "breakup" => some ("KEYWORD_BREAK", "breakup")
  | "moveon" => some ("KEYWORD_CONTINUE", "moveon")
  | "love" => some ("KEYWORD_MAIN", "love")
  | "periodt" => some ("KEYWORD_ENDL", "periodt")
  | "const" => some ("KEYWORD_CONST", "const")
  | "redflag" => some ("BOOL_LITERAL_FALSE", "redflag")
  | "greenflag" => some ("BOOL_LITERAL_TRUE", "greenflag")
  | "boundaries" => some ("KEYWORD_NAMESPACE", "boundaries")
  | "comeback" => some ("KEYWORD_RETURN", "comeback")
  | _ => none

/-- `MULTI_CHAR_OPERATORS` (Lexer.py lines 44-62). -/
def multiCharOperators (s : String) : Option String :=
  match s with
  | "==" => some "OP_EQ"
  | "!=" => some "OP_NEQ"
  | ">=" => some "OP_GTE"
  | "<=" => some "OP_LTE"
  | ">>" => some "OP_RSHIFT"
  | "<<" => some "OP_LSHIFT"
  | "&&" => some "OP_AND"
  | "||" => some "OP_OR"
  | "++" => some "OP_INC"
  | "--" => some "OP_DEC"
  | "+=" => some "OP_PLUS_ASSIGN"
  | "-=" => some "OP_MINUS_ASSIGN"
  | "*=" => some "OP_MUL_ASSIGN"
  | "/=" => some "OP_DIV_ASSIGN"
  | "%=" => some "OP_MOD_ASSIGN"
  | "::" => some "OP_SCOPE"
  | "->" => some "OP_ARROW"
  | _ => none

/-- `SINGLE_CHAR_TOKENS` (Lexer.py lines 64-87). -/
def singleCharTokens (c : Char) : Option String :=
  match c with
  | ';' => some "SEMICOLON"
  | ',' => some "COMMA"
  | '(' => some "LPAREN"
  | ')' => some "RPAREN"
  | '\x7b' => some "LBRACE"
  | '\x7d' => some "RBRACE"
  | '[' => some "LBRACKET"
  | ']' => some "RBRACKET"
  | ':' => some "COLON"
  | '.' => some "DOT"
  | '+' => some "PLUS"
  | '-' => some "MINUS"
  | '*' => some "STAR"
  | '/' => some "SLASH"
  | '%' => some "PERCENT"
  | '=' => some "ASSIGN"
  | '>' => some "GT"
  | '<' => some "LT"
  | '!' => some "BANG"
  | '&' => some "AMPERSAND"
  | '|' => some "PIPE"
  | '#' => some "HASH"
  | _ => none

/-- Modelled from the spec: `Backend/Lexical/Delims.py` (imported by
Lexer.py for `valid_delimiters_identifier`) is not present under src.
The spec describes the identifier delimiters as the characters that may
follow an identifier; token_map.py declares this very set under the name
`iden_del` (spaces, tabs, parentheses, brackets and the general
operators), so the missing constant is modelled as that set. -/
def validDelimitersIdentifier : List Char :=
  [' ', '\t', '(', ')', '[', ']'] ++
  ['+', '-', '*', '/', '%', '<', '>', '=', '!', '&', '|']

/-- Modelled from the spec: `Backend/Lexical/Literals.py` is not present
under src.  Per spec section 2 the character-class data is alphabet,
digit and alphanumeric; `Literals["alphabet"]` is the ASCII letters. -/
def literalsAlphabet : List Char := alphabetChars

/-- Modelled from the spec: `Literals["digit"]`, the ASCII digits. -/
def literalsDigit : List Char := digitChars

/-- Modelled from the spec: `Literals["alphanumeric"]`, letters and digits. -/
def literalsAlphanumeric : List Char := alphanumChars

/-- `IDENTIFIER_DELIMS` (Lexer.py line 92). -/
def identifierDelims : List Char := validDelimitersIdentifier

/-- `WHITESPACE` (Lexer.py line 96): space, CR, tab and form feed. -/
def whitespaceChars : List Char := [' ', '\r', '\t', Char.ofNat 12]

/-- `DISALLOWED_IDENTIFIERS` (Lexer.py line 97). -/
def disallowedIdentifiers : List String := ["true", "false"]

/-- `BAD_SYMBOLS_AFTER_IDENTIFIER` (Lexer.py line 99). -/
def badSymbolsAfterIdentifier : List Char :=
  ['!', '@', '#', '$', '^', '|', '\\', '?', '~']

/-- `IDENT_FOLLOW_CHARS` (Lexer.py lines 100-106): the union of both
identifier follow variants, the identifier delimiters, the whitespace
set, newline and NUL. -/
def identFollowChars : List Char :=
  expandFollow identifierFollowsV1 ++ expandFollow identifierFollowsV2 ++
  identifierDelims ++ whitespaceChars ++ ['\n', '\x00']

/-! ## Tokens and lexer state -/

/-- Python `str.startswith`, on the character lists (the byte-based
`String.isPrefixOf` of the core library does not reduce in proofs). -/
def strHasPrefix (pre s : String) : Bool := s.data.take pre.data.length == pre.data

/-- `Token` (Lexer.py lines 108-118). -/
structure Token where
  kind : String
  lexeme : String
  literal : Option String := none
  line : Nat := 1
  column : Nat := 1
  cppEquivalent : Option String := none
deriving DecidableEq, Repr

/-- The lexer cursor: the unread suffix of the source together with the
current line and column (Lexer.py lines 126-133; `pos`/`start` become
the list suffix, slices become the consumed characters). -/
structure LexState where
  rest : List Char
  line : Nat
  column : Nat
deriving DecidableEq, Repr

/-- `_peek` (Lexer.py lines 399-402). -/
def peekCh (st : LexState) : Char := st.rest.headD '\x00'

/-- `_peek_next` (Lexer.py lines 404-407). -/
def peekNextCh (st : LexState) : Char := st.rest.getD 1 '\x00'

/-- `_advance` (Lexer.py lines 389-397): consume one character, tracking
line and column.  On an exhausted source the state is unchanged (the
source never calls it there). -/
def advance1 (st : LexState) : Char × LexState :=
  match st.rest with
  | [] => ('\x00', st)
  | c :: rs =>
    if c = '\n' then (c, ⟨rs, st.line + 1, 1⟩)
    else (c, ⟨rs, st.line, st.column + 1⟩)

/-- Consume `n` characters by iterating `advance1`. -/
def advanceN (st : LexState) : Nat → LexState
  | 0 => st
  | n + 1 => advanceN (advance1 st).2 n

/-- `_match` (Lexer.py lines 417-422): conditional consume; the column
advances but the line is never updated (the source never matches a
newline). -/
def matchCh (st : LexState) (expected : Char) : Bool × LexState :=
  match st.rest with
  | [] => (false, st)
  | c :: rs =>
    if c = expected then (true, ⟨rs, st.line, st.column + 1⟩) else (false, st)

/-- `_peek_non_whitespace` (Lexer.py lines 409-415). -/
def peekNonWs (st : LexState) : Char :=
  (st.rest.dropWhile (fun c => c = ' ' ∨ c = '\t' ∨ c = '\r' ∨ c = '\n')).headD '\x00'

/-- `ch in ALPHA` via `_is_identifier_start` (Lexer.py lines 382-384). -/
def isAlphaCh (c : Char) : Bool := alphabetChars.contains c

/-- ASCII model of Python `str.isdigit` as used on source characters. -/
def isDigitCh (c : Char) : Bool := digitChars.contains c

/-- `_is_identifier_part` (Lexer.py lines 386-387). -/
def isIdentPart (c : Char) : Bool := alphanumChars.contains c || c = '_'

/-- Decimal value of a digit string (Python `int`). -/
def natOfDigits (ds : List Char) : Nat :=
  ds.foldl (fun acc c => 10 * acc + (c.toNat - 48)) 0

/-- Python `repr` of a one-character string, used in error messages. -/
def pyCharRepr (c : Char) : String :=
  if c = Char.ofNat 39 then "\"" ++ String.singleton (Char.ofNat 39) ++ "\""
  else
    let body :=
      if c = '\\' then "\\\\"
      else if c = '\t' then "\\t"
      else if c = '\n' then "\\n"
      else if c = '\r' then "\\r"
      else if c = Char.ofNat 12 then "\\x0c"
      else if c = '\x00' then "\\x00"
      else String.singleton c
    String.singleton (Char.ofNat 39) ++ body ++ String.singleton (Char.ofNat 39)

/-- Render a line:column pair as in the Python f-strings. -/
def atPos (line col : Nat) : String := toString line ++ ":" ++ toString col

/-- Keep only the first occurrence of each character (Python set
iteration for the fallback branch of `_format_expected`). -/
def dedupChars : List Char → List Char
  | [] => []
  | c :: rs =>
    c :: (dedupChars (rs.filter (fun d => d ≠ c)))
termination_by l => l.length
decreasing_by
  simp only [List.length_cons]
  exact Nat.lt_succ_of_le (List.length_filter_le _ _)

/-- `_format_expected` (Lexer.py lines 427-441). -/
def formatExpected (allowed : List Char) : String :=
  let parts : List String :=
    (if alphanumChars.all (fun c => allowed.contains c) then ["alphanum"] else []) ++
    (if allowed.contains ' ' || allowed.contains '\t' then ["whitespace"] else []) ++
    (['(', ')', '[', ']', Char.ofNat 123, Char.ofNat 125, ';', ',', ':'].filter
      (fun c => allowed.contains c)).map pyCharRepr ++
    (['+', '-', '*', '/', '%', '=', '!', '>', '<', '&', '|', '.'].filter
      (fun c => allowed.contains c)).map pyCharRepr
  let parts :=
    if parts = [] then
      [String.intercalate ", "
        (((dedupChars allowed).map pyCharRepr).mergeSort (fun a b => decide (a ≤ b)))]
    else parts
  "- " ++ String.intercalate "- " parts

/-! ## Single-token scanner (Lexer.py) -/

/-- Result of one dispatch of `_scan_single_token`: the new cursor and
the tokens appended during the call, or a `LexerError` (message, cursor
at raise time, tokens appended before the raise). -/
inductive Step where
  | ok (st : LexState) (toks : List Token)
  | err (msg : String) (st : LexState) (toks : List Token)
deriving DecidableEq, Repr

/-- The cursor carried by a `Step`. -/
def Step.st : Step → LexState
  | .ok st _ => st
  | .err _ st _ => st

/-- The tokens appended by a `Step`. -/
def Step.toks : Step → List Token
  | .ok _ ts => ts
  | .err _ _ ts => ts

/-- `_identifier_token` (Lexer.py lines 214-263).  `st1` is the cursor
just after the leading letter `ch`; `line`/`col` the recorded start. -/
def identifierToken (ch : Char) (st1 : LexState) (line col : Nat) : Step :=
  let tail := st1.rest.takeWhile isIdentPart
  let st2 := advanceN st1 tail.length
  let lexeme : String := ⟨ch :: tail⟩
  if lexeme.length > 20 then
    .err ("Identifier `" ++ lexeme ++ "` exceeds the maximum length of 20 characters at "
      ++ atPos line col) st2 []
  else
    let nxt := peekCh st2
    if badSymbolsAfterIdentifier.contains nxt
        && !(nxt = '!' && peekNextCh st2 = '=')
        && !(nxt = '|' && peekNextCh st2 = '|') then
      .err ("Invalid delimiter `" ++ String.singleton nxt ++ "` after identifier `"
        ++ lexeme ++ "` at " ++ atPos line col ++ "\n\nExpected: "
        ++ formatExpected identFollowChars) st2 []
    else
      match reservedWords lexeme with
      | none =>
        let lowered : String := ⟨lexeme.data.map Char.toLower⟩
        if disallowedIdentifiers.contains lowered then
          .err ("`" ++ lexeme ++ "` is not valid in this language; use `greenflag` or `redflag` at "
            ++ atPos line col) st2 []
        else if (reservedWords lowered).isSome then
          .err ("Reserved word `" ++ lowered ++ "` must be written in lowercase at "
            ++ atPos line col) st2 []
        else
          .ok st2 [{ kind := "IDENTIFIER", lexeme := lexeme, line := line, column := col }]
      | some (kind, cppEquiv) =>
        let nxt := peekCh st2
        let allowed := (expandedReservedWordFollows lexeme).getD identFollowChars
        if !(allowed.contains nxt) then
          .err ("Reserved word `" ++ lexeme ++ "` must be followed by a delimiter at "
            ++ atPos line col ++ "\n\nExpected: " ++ formatExpected allowed) st2 []
        else
          let literal := if strHasPrefix "BOOL_LITERAL" kind then some cppEquiv else none
          .ok st2 [{ kind := kind, lexeme := lexeme, literal := literal,
                     line := line, column := col, cppEquivalent := some cppEquiv }]

/-- Normalized form of a float lexeme (Lexer.py lines 301-304): integer
part with leading zeros stripped (one `0` if empty), a dot, then the
fractional part with trailing zeros stripped and truncated to its first
six digits (`0` if empty). -/
def floatNormIntPart (lexChars : List Char) : List Char :=
  let intPart := lexChars.takeWhile (fun c => c ≠ '.')
  let s := intPart.dropWhile (fun c => c = '0')
  if s = [] then ['0'] else s

/-- The truncated fractional part of the normalized float form. -/
def floatNormFracPart (lexChars : List Char) : List Char :=
  let fracPart := ((lexChars.dropWhile (fun c => c ≠ '.')).drop 1)
  let raw := (fracPart.reverse.dropWhile (fun c => c = '0')).reverse
  if raw = [] then ['0'] else raw.take 6

/-- `floatNormalize` assembles the normalized `literal` string stored
for a `FLOAT_LITERAL`. -/
def floatNormalize (lexeme : String) : String :=
  ⟨floatNormIntPart lexeme.data ++ '.' :: floatNormFracPart lexeme.data⟩

/-- The normalized float value scaled by `10 ^ 6`; with at most six
fractional digits this integer comparison is exactly the `Decimal`
comparison of the source (Lexer.py lines 316-323). -/
def floatVal6 (lexChars : List Char) : Nat :=
  natOfDigits (floatNormIntPart lexChars) * 1000000 +
    natOfDigits (floatNormFracPart lexChars) * 10 ^ (6 - (floatNormFracPart lexChars).length)

/-- The range/normalization tail of `_number_token` (Lexer.py lines
274-329), after the digits have been consumed.  `st2` is the cursor just
past the numeral, `lexChars` the consumed lexeme. -/
def finishNumber (kind : String) (lexChars : List Char) (st2 : LexState)
    (line col : Nat) : Step :=
  let lexeme : String := ⟨lexChars⟩
  let nxt := peekCh st2
  if !(identFollowChars.contains nxt) then
    let tok : Token := { kind := kind, lexeme := lexeme, literal := some lexeme,
                         line := line, column := col }
    let humanKind := if kind = "FLOAT_LITERAL" then "float" else "integer"
    .err ("Invalid delimiter after " ++ humanKind ++ " " ++ lexeme ++ ": "
      ++ String.singleton nxt ++ " at " ++ atPos line st2.column ++ "\nExpected: "
      ++ formatExpected identFollowChars) st2 [tok]
  else if kind = "INT_LITERAL" then
    let digitsOnly := let s := lexChars.dropWhile (fun c => c = '0')
                      if s = [] then ['0'] else s
    if digitsOnly.length > 10 then
      .err ("Integer literal `" ++ lexeme ++ "` exceeds maximum length of 10 digits at "
        ++ atPos line col) st2 []
    else if natOfDigits digitsOnly > 9999999999 then
      .err ("Integer literal `" ++ lexeme ++ "` exceeds maximum value 9999999999 at "
        ++ atPos line col) st2 []
    else
      .ok st2 [{ kind := kind, lexeme := lexeme, literal := some lexeme,
                 line := line, column := col }]
  else
    let normInt := floatNormIntPart lexChars
    let truncatedFrac := floatNormFracPart lexChars
    if normInt.length > 10 then
      .err ("Float literal `" ++ lexeme ++ "` exceeds 10 digits before decimal at "
        ++ atPos line col) st2 []
    else if normInt.length + truncatedFrac.length > 16 then
      .err ("Float literal `" ++ lexeme ++ "` exceeds 16 total digits at "
        ++ atPos line col) st2 []
    else if floatVal6 lexChars > 9999999999999999 then
      .err ("Float literal `" ++ lexeme ++ "` exceeds maximum value 9999999999.999999 at "
        ++ atPos line col) st2 []
    else
      .ok st2 [{ kind := kind, lexeme := lexeme, literal := some (floatNormalize lexeme),
                 line := line, column := col }]

/-- `_number_token` (Lexer.py lines 265-274): consume the digits, detect
a fractional part, then delegate to `finishNumber`. -/
def numberToken (ch : Char) (st1 : LexState) (line col : Nat) : Step :=
  let ds := st1.rest.takeWhile isDigitCh
  let stA := advanceN st1 ds.length
  if peekCh stA = '.' && isDigitCh (peekNextCh stA) then
    let fs := (stA.rest.drop 1).takeWhile isDigitCh
    let stB := advanceN stA (1 + fs.length)
    finishNumber "FLOAT_LITERAL" (ch :: (ds ++ '.' :: fs)) stB line col
  else
    finishNumber "INT_LITERAL" (ch :: ds) stA line col

/-- Outcome of the string-body loop of `_string_token`: the decoded
content and consumed length on close, or the kind of error with the
consumed length at raise time. -/
inductive StrOut where
  | closed (content : List Char) (consumed : Nat)
  | badEscape (c : Char) (consumed : Nat)
  | unterminated (consumed : Nat)
deriving DecidableEq, Repr

/-- The character-consuming loop of `_string_token` (Lexer.py lines
337-367), running over the unread suffix with the `escaped` flag. -/
def scanStringBody : List Char → Bool → List Char → Nat → StrOut
  | [], _, _, n => .unterminated n
  | c :: rs, escaped, content, n =>
    if escaped then
      if c = '"' then scanStringBody rs false (content ++ ['"']) (n + 1)
      else if c = '\\' then scanStringBody rs false (content ++ ['\\']) (n + 1)
      else if c = 'n' then scanStringBody rs false (content ++ ['\n']) (n + 1)
      else if c = 't' then scanStringBody rs false (content ++ ['\t']) (n + 1)
      else .badEscape c (n + 1)
    else if c = '\\' then scanStringBody rs true content (n + 1)
    else if c = '"' then .closed content (n + 1)
    else if c = '\n' then .unterminated (n + 1)
    else scanStringBody rs false (content ++ [c]) (n + 1)

/-- `_string_token` (Lexer.py lines 331-367).  `quote` is the consumed
opening character; the raw newline and end-of-source cases share the
unterminated-string message of the source. -/
def stringToken (quote : Char) (st1 : LexState) (line col : Nat) : Step :=
  if quote ≠ '"' then
    .err ("String values must be enclosed in double quotes (\") at " ++ atPos line col)
      st1 []
  else
    match scanStringBody st1.rest false [] 0 with
    | .closed content n =>
      let st2 := advanceN st1 n
      let lexeme : String := ⟨quote :: st1.rest.take n⟩
      .ok st2 [{ kind := "STRING_LITERAL", lexeme := lexeme, literal := some ⟨content⟩,
                 line := line, column := col }]
    | .badEscape c n =>
      .err ("Invalid escape sequence `\\" ++ String.singleton c ++ "` in string at "
        ++ atPos line col) (advanceN st1 n) []
    | .unterminated n =>
      .err ("Unterminated string at " ++ atPos line col) (advanceN st1 n) []

/-- `_skip_line_comment` (Lexer.py lines 369-371): consume up to, not
including, the next newline. -/
def skipLineComment (st : LexState) : LexState :=
  advanceN st ((st.rest.takeWhile (fun c => c ≠ '\n')).length)

/-- Number of characters `_skip_block_comment` (Lexer.py lines 373-380)
consumes before returning, `none` when the comment never closes. -/
def blockCommentLen : List Char → Option Nat
  | [] => none
  | c :: rs =>
    if c = '*' ∧ rs.headD '\x00' = '/' then some 2
    else (blockCommentLen rs).map (· + 1)

/-- `_validate_symbol_follow` (Lexer.py lines 443-463): `none` when the
operator is accepted, otherwise the error message. -/
def validateSymbolFollow (lexeme : String) (st : LexState) (line col : Nat) :
    Option String :=
  if lexeme = "=" then none
  else if lexeme = ";" then none
  else if [">", "<", ">=", "<=", "==", "!=", ">>", "<<", "&&", "||"].contains lexeme then
    none
  else if ["(", ")", "[", "]", "\x7b", "\x7d"].contains lexeme then none
  else
    match expandedReservedSymbolFollows lexeme with
    | none => none
    | some allowed =>
      if allowed = [] then none
      else
        let nxt := peekNonWs st
        if nxt = '\x00' then none
        else if allowed.contains nxt then none
        else some ("Invalid delimiter `" ++ String.singleton nxt ++ "` after operator `"
          ++ lexeme ++ "` at " ++ atPos line col ++ "\n\nExpected one of: "
          ++ formatExpected allowed)

/-- `_scan_single_token` (Lexer.py lines 166-201).  `ch` has been
consumed (cursor `st1`); `sl`/`sc` are the recorded start line/column. -/
def scanSingle (ch : Char) (st1 : LexState) (sl sc : Nat) : Step :=
  if whitespaceChars.contains ch then .ok st1 []
  else if ch = '\n' then
    .ok st1 [{ kind := "NEWLINE", lexeme := "\\n", line := sl, column := sc }]
  else
    let m1 := matchCh st1 '/'
    if ch = '/' ∧ m1.1 then .ok (skipLineComment m1.2) []
    else
      let m2 := matchCh st1 '*'
      if ch = '/' ∧ m2.1 then
        match blockCommentLen m2.2.rest with
        | some n => .ok (advanceN m2.2 n) []
        | none =>
          .err "Unterminated block comment" (advanceN m2.2 m2.2.rest.length) []
      else if ch = '\x27' ∨ ch = '"' then stringToken ch st1 sl sc
      else if isDigitCh ch then numberToken ch st1 sl sc
      else if isAlphaCh ch then identifierToken ch st1 sl sc
      else
        let twoChar : String := ⟨[ch, peekCh st1]⟩
        match multiCharOperators twoChar with
        | some kind =>
          let st2 := (advance1 st1).2
          match validateSymbolFollow twoChar st2 sl sc with
          | some msg => .err msg st2 []
          | none =>
            .ok st2 [{ kind := kind, lexeme := twoChar, line := sl, column := sc }]
        | none =>
          match singleCharTokens ch with
          | some kind =>
            match validateSymbolFollow (String.singleton ch) st1 sl sc with
            | some msg => .err msg st1 []
            | none =>
              .ok st1 [{ kind := kind, lexeme := String.singleton ch,
                         line := sl, column := sc }]
          | none =>
            .err ("Unexpected character " ++ pyCharRepr ch ++ " at " ++ atPos sl sc)
              st1 []

/-! ## Scanning loops (Lexer.py lines 135-162, 203-211) -/

/-- Outcome of `scan_tokens`: the token vector, or the `LexerError`
message with the partial token list it carries. -/
inductive ScanOut where
  | ok (toks : List Token)
  | err (msg : String) (toks : List Token)
deriving DecidableEq, Repr

/-- `_recover_after_error` (Lexer.py lines 203-211): advance one
character, then skip until whitespace, newline or an identifier
delimiter. -/
def recoverAfterError (st : LexState) : LexState :=
  let st1 := if st.rest.isEmpty then st else (advance1 st).2
  advanceN st1 ((st1.rest.takeWhile (fun c =>
    !(whitespaceChars.contains c || c = '\n' || identifierDelims.contains c))).length)

/-- The `EOF` token appended after the loop. -/
def eofToken (st : LexState) : Token :=
  { kind := "EOF", lexeme := "", line := st.line, column := st.column }

/-- The loop of `scan_tokens` (Lexer.py lines 135-145), with fuel; the
canonical fuel is shown sufficient separately. -/
def scanTokensFuel : Nat → LexState → List Token → Option ScanOut
  | 0, _, _ => none
  | fuel + 1, st, acc =>
    if st.rest.isEmpty then some (.ok (acc ++ [eofToken st]))
    else
      let sl := st.line
      let sc := st.column
      let a := advance1 st
      match scanSingle a.1 a.2 sl sc with
      | .ok st2 new => scanTokensFuel fuel st2 (acc ++ new)
      | .err msg _ new => some (.err msg (acc ++ new))

/-- The loop of `scan_tokens_collect_errors` (Lexer.py lines 147-162),
with fuel. -/
def scanCollectFuel : Nat → LexState → List Token → List String →
    Option (List Token × List String)
  | 0, _, _, _ => none
  | fuel + 1, st, acc, errs =>
    if st.rest.isEmpty then some (acc ++ [eofToken st], errs)
    else
      let sl := st.line
      let sc := st.column
      let a := advance1 st
      match scanSingle a.1 a.2 sl sc with
      | .ok st2 new => scanCollectFuel fuel st2 (acc ++ new) errs
      | .err msg st2 new =>
        scanCollectFuel fuel (recoverAfterError st2) (acc ++ new) (errs ++ [msg])

/-- The initial cursor over a source. -/
def initState (src : List Char) : LexState := ⟨src, 1, 1⟩

/-- `Lexer.scan_tokens` / `tokenize` on a source (the fuel never runs
out; the default is unreachable). -/
def scanTokens (src : List Char) : ScanOut :=
  (scanTokensFuel (src.length + 1) (initState src) []).getD (.err "" [])

/-- `Lexer.scan_tokens_collect_errors` / `tokenize_with_errors`. -/
def scanTokensCollectErrors (src : List Char) : List Token × List String :=
  (scanCollectFuel (src.length + 1) (initState src) [] []).getD ([], [])

/-! ## Token row projection (Lexer.py lines 471-516) -/

/-- A row of the UI projection produced by `tokens_as_rows`. -/
structure TokenRow where
  lexeme : String
  token : String
  tokenType : String
deriving DecidableEq, Repr

/-- `_format_tokenizer` (Lexer.py lines 471-485). -/
def formatTokenizer (tok : Token) : String :=
  match tok.literal with
  | some l => l
  | none =>
    match tok.lexeme with
    | "(" => "parenthesis"
    | ")" => "parenthesis"
    | "\x7b" => "brace"
    | "\x7d" => "brace"
    | "[" => "bracket"
    | "]" => "bracket"
    | ";" => "semicolon"
    | "," => "comma"
    | _ => tok.lexeme

/-- `_token_type` (Lexer.py lines 488-501); `TOKEN_TYPE_OVERRIDES` is the
empty dict, so other kinds pass through before the 12-character cut. -/
def tokenTypeName (kind : String) : String :=
  let name :=
    if kind = "INT_LITERAL" then "INT_LIT"
    else if kind = "FLOAT_LITERAL" then "FLOAT_LIT"
    else if kind = "STRING_LITERAL" then "STRING_LIT"
    else if kind = "CHAR_LITERAL" then "CHAR_LIT"
    else if kind = "BOOL_LITERAL_FALSE" ∨ kind = "BOOL_LITERAL_TRUE" then "BOOL_LIT"
    else kind
  name.take 12

/-- `tokens_as_rows` (Lexer.py lines 504-516). -/
def tokensAsRows (ts : List Token) : List TokenRow :=
  (ts.filter (fun t => t.kind ≠ "EOF" ∧ t.kind ≠ "NEWLINE")).map
    (fun t => { lexeme := t.lexeme, token := formatTokenizer t,
                tokenType := tokenTypeName t.kind })

/-- The `unparse` of the specification: the lexemes of all tokens except
`EOF`, interleaved with single spaces. -/
def unparseTokens (ts : List Token) : List Char :=
  (String.intercalate " " ((ts.filter (fun t => t.kind ≠ "EOF")).map Token.lexeme)).data

/-! ## Structural validator (error.py) -/

/-- The verdict record built by `_success` / `_failure`
(error.py lines 68-85). -/
structure Verdict where
  ok : Bool
  code : Option String := none
  message : String
  token : Option Token := none
  expected : Option (List String) := none
deriving DecidableEq, Repr

/-- `_success` (error.py lines 68-69). -/
def verdictSuccess (message : String) : Verdict := { ok := true, message := message }

/-- `_failure` (error.py lines 72-85). -/
def verdictFailure (code message : String) (token : Option Token := none)
    (expected : Option (List String) := none) : Verdict :=
  { ok := false, code := some code, message := message, token := token,
    expected := expected }

/-- `IGNORED_KINDS` (error.py line 7). -/
def ignoredKinds : List String := ["NEWLINE", "EOF"]

/-- `DELIM_OPEN_TO_CLOSE` (error.py line 8) as a lookup. -/
def delimOpenToClose (lex : String) : Option String :=
  match lex with
  | "(" => some ")"
  | "\x7b" => some "\x7d"
  | "[" => some "]"
  | _ => none

/-- `DELIM_CLOSE_TO_OPEN` (error.py line 9). -/
def delimCloseToOpen (lex : String) : Option String :=
  match lex with
  | ")" => some "("
  | "\x7d" => some "\x7b"
  | "]" => some "["
  | _ => none

/-- `DELIM_MISSING_CODES` (error.py lines 10-14). -/
def delimMissingCode (openLex : String) : String :=
  match openLex with
  | "(" => "ERR_EXPECTED_RPAREN"
  | "\x7b" => "ERR_EXPECTED_RBRACE"
  | _ => "ERR_EXPECTED_RBRACKET"

/-- `DELIM_UNEXPECTED_CODES` (error.py lines 15-19). -/
def delimUnexpectedCode (closeLex : String) : String :=
  match closeLex with
  | ")" => "ERR_UNEXPECTED_RPAREN"
  | "\x7d" => "ERR_UNEXPECTED_RBRACE"
  | _ => "ERR_UNEXPECTED_RBRACKET"

/-- `ALLOWED_TYPE_KINDS` (error.py lines 21-27). -/
def allowedTypeKinds : List String :=
  ["KEYWORD_TYPE_INT", "KEYWORD_TYPE_FLOAT", "KEYWORD_TYPE_STRING",
   "KEYWORD_TYPE_BOOL", "IDENTIFIER"]

/-- The stack walk of `_check_balanced_delimiters` (error.py lines
140-175); the stack keeps the most recent open at its head. -/
def checkBalancedAux : List Token → List Token → Option Verdict
  | [], stack =>
    match stack with
    | [] => none
    | opening :: _ =>
      let expected := (delimOpenToClose opening.lexeme).getD ""
      some (verdictFailure (delimMissingCode opening.lexeme)
        ("Missing closing `" ++ expected ++ "` for `" ++ opening.lexeme
          ++ "` opened at line " ++ toString opening.line ++ ", column "
          ++ toString opening.column ++ ".") (some opening) (some [expected]))
  | tok :: rest, stack =>
    if (delimOpenToClose tok.lexeme).isSome then
      checkBalancedAux rest (tok :: stack)
    else
      match delimCloseToOpen tok.lexeme with
      | none => checkBalancedAux rest stack
      | some mate =>
        match stack with
        | [] =>
          some (verdictFailure (delimUnexpectedCode tok.lexeme)
            ("Found closing `" ++ tok.lexeme ++ "` without a matching `" ++ mate ++ "`.")
            (some tok) (some [mate]))
        | opening :: stack' =>
          if opening.lexeme = mate then checkBalancedAux rest stack'
          else
            let expected := (delimOpenToClose opening.lexeme).getD ""
            some (verdictFailure (delimMissingCode opening.lexeme)
              ("Expected `" ++ expected ++ "` to close `" ++ opening.lexeme
                ++ "` opened at line " ++ toString opening.line ++ ", column "
                ++ toString opening.column ++ ", but found `" ++ tok.lexeme ++ "`.")
              (some tok) (some [expected]))

/-- `_check_balanced_delimiters` on a filtered stream. -/
def checkBalancedDelimiters (tokens : List Token) : Option Verdict :=
  checkBalancedAux tokens []

/-- `_looks_like_cpp_decl` (error.py lines 203-211) on the unread
suffix: a type-kind token followed by an identifier. -/
def looksLikeCppDecl (rest : List Token) : Bool :=
  match rest with
  | t1 :: t2 :: _ => allowedTypeKinds.contains t1.kind ∧ t2.kind = "IDENTIFIER"
  | _ => false

/-- The depth walks inside `_consume_cpp_decl` (error.py lines 223-230
and 246-253): consume until the nesting depth returns to zero, yielding
the unread suffix, or `none` when the stream runs out first. -/
def walkDepth (openLex closeLex : String) : List Token → Nat → Option (List Token)
  | l, 0 => some l
  | [], _ + 1 => none
  | t :: ts, d + 1 =>
    if t.lexeme = openLex then walkDepth openLex closeLex ts (d + 2)
    else if t.lexeme = closeLex then walkDepth openLex closeLex ts d
    else walkDepth openLex closeLex ts (d + 1)

/-- `_consume_cpp_decl` (error.py lines 214-283) on the unread suffix:
skip the type and name, then either a function/prototype shape or a
variable declaration scanned up to its `;`. -/
def consumeCppDecl (rest : List Token) : Except Verdict (List Token) :=
  match rest.drop 2 with
  | [] =>
    .error (verdictFailure "ERR_EXPECTED_SEMICOLON" "Missing `;` after global declaration."
      none (some [";"]))
  | t :: ts =>
    if t.lexeme = "(" then
      match walkDepth "(" ")" ts 1 with
      | none =>
        .error (verdictFailure "ERR_EXPECTED_RPAREN"
          "Unterminated parameter list in global declaration."
          rest.getLast? (some [")"]))
      | some afterParen =>
        match afterParen with
        | [] =>
          .error (verdictFailure "ERR_EXPECTED_LBRACE_OR_SEMICOLON"
            "Expected `\x7b` for function body or `;` for prototype."
            none (some ["\x7b", ";"]))
        | u :: us =>
          if u.lexeme = ";" then .ok us
          else if u.lexeme = "\x7b" then
            match walkDepth "\x7b" "\x7d" us 1 with
            | none =>
              .error (verdictFailure "ERR_EXPECTED_RBRACE"
                "Unterminated global function body." rest.getLast? (some ["\x7d"]))
            | some k => .ok k
          else
            .error (verdictFailure "ERR_EXPECTED_LBRACE_OR_SEMICOLON"
              "Expected `\x7b` for function body or `;` for prototype."
              (some u) (some ["\x7b", ";"]))
    else
      match (t :: ts).dropWhile (fun tok => tok.lexeme ≠ ";") with
      | [] =>
        .error (verdictFailure "ERR_EXPECTED_SEMICOLON"
          "Missing `;` after global declaration." none (some [";"]))
      | _ :: us => .ok us

/-- The greedy global-declaration loop of `validate_program_structure`
(error.py lines 47-51), with fuel (each step consumes at least three
tokens, so the canonical fuel suffices). -/
def declLoop : Nat → List Token → Except Verdict (List Token)
  | 0, rest => .ok rest
  | fuel + 1, rest =>
    if looksLikeCppDecl rest then
      match consumeCppDecl rest with
      | .error v => .error v
      | .ok rest' => declLoop fuel rest'
    else .ok rest

/-- One `expect` step of `_consume_main_signature` (error.py lines
91-97). -/
def expectTok (rest : List Token) (pred : Token → Bool) (message code : String)
    (expected : List String) : Except Verdict (List Token) :=
  match rest with
  | [] => .error (verdictFailure code message none (some expected))
  | t :: ts =>
    if pred t then .ok ts else .error (verdictFailure code message (some t) (some expected))

/-- `_consume_main_signature` (error.py lines 88-137): the five checks
`love`, identifier, `(`, `)`, `\x7b`, in order. -/
def consumeMainSignature (rest : List Token) : Except Verdict (List Token) := do
  let r1 ← expectTok rest (fun t => t.lexeme = "love")
    "Program must start with `love` keyword." "ERR_EXPECTED_LOVE" ["love"]
  let r2 ← expectTok r1 (fun t => t.kind = "IDENTIFIER")
    "Expected identifier after `love`." "ERR_EXPECTED_MAIN" ["<identifier>"]
  let r3 ← expectTok r2 (fun t => t.lexeme = "(")
    "Expected `(` after `main`." "ERR_EXPECTED_LPAREN" ["("]
  let r4 ← expectTok r3 (fun t => t.lexeme = ")")
    "Expected `)` to close parameters." "ERR_EXPECTED_RPAREN" [")"]
  expectTok r4 (fun t => t.lexeme = "\x7b")
    "Expected `\x7b` to start main block." "ERR_EXPECTED_LBRACE" ["\x7b"]

/-- `_ensure_program_ends_after_main` (error.py lines 178-200), walking
the suffix after the main signature at brace depth 1. -/
def ensureEndsAfterMain : List Token → Nat → Option Verdict
  | [], _ =>
    some (verdictFailure "ERR_EXPECTED_RBRACE"
      "Missing closing `\x7d` for the `love` block." none (some ["\x7d"]))
  | t :: ts, depth =>
    if t.lexeme = "\x7b" then ensureEndsAfterMain ts (depth + 1)
    else if t.lexeme = "\x7d" then
      if depth = 1 then
        match ts with
        | [] => none
        | nxt :: _ =>
          some (verdictFailure "ERR_UNEXPECTED_TOKEN_AFTER_MAIN"
            "Program must end immediately after the closing `\x7d` of the `love` block."
            (some nxt) none)
      else ensureEndsAfterMain ts (depth - 1)
    else ensureEndsAfterMain ts depth

/-- `validate_program_structure` (error.py lines 30-65). -/
def validateProgramStructure (tokens : List Token) : Verdict :=
  let filtered := tokens.filter (fun t => !(ignoredKinds.contains t.kind))
  if filtered.isEmpty then
    verdictFailure "ERR_EMPTY"
      "Source is empty. Expected `love <identifier>() \x7b ... \x7d`."
  else
    match checkBalancedDelimiters filtered with
    | some v => v
    | none =>
      match declLoop (filtered.length + 1) filtered with
      | .error v => v
      | .ok rest =>
        if rest.isEmpty then verdictSuccess "Structure looks valid (globals only)."
        else
          match consumeMainSignature rest with
          | .error v => v
          | .ok afterSig =>
            match ensureEndsAfterMain afterSig 1 with
            | some v => v
            | none => verdictSuccess "Structure looks valid."

/-! ## Parser (syntax_analyzer.py) -/

/-- `ParseError` (syntax_analyzer.py lines 55-76). -/
structure ParseErr where
  message : String
  line : Nat
  column : Nat
  expected : List String
  token : Option Token
deriving DecidableEq, Repr

/-- Parser state: the token stream with its cursor (`TokenStream`,
syntax_analyzer.py lines 25-50) and the collected errors. -/
structure PSt where
  tokens : List Token
  pos : Nat
  errors : List ParseErr
deriving DecidableEq, Repr

/-- Reading past the stream (impossible on lexer output, which is
`EOF`-terminated) falls back to a default token. -/
def defaultEOFToken : Token := { kind := "EOF", lexeme := "", line := 0, column := 0 }

/-- `TokenStream.peek` (syntax_analyzer.py lines 30-31). -/
def pPeek (st : PSt) : Token := st.tokens.getD st.pos defaultEOFToken

/-- `TokenStream.at_end` (syntax_analyzer.py lines 33-34). -/
def pAtEnd (st : PSt) : Bool := (pPeek st).kind = "EOF"

/-- `TokenStream.advance` (syntax_analyzer.py lines 36-39). -/
def pAdvance (st : PSt) : Token × PSt :=
  let st' := if pAtEnd st then st else { st with pos := st.pos + 1 }
  (st'.tokens.getD (st'.pos - 1) defaultEOFToken, st')

/-- `TokenStream.match` (syntax_analyzer.py lines 41-45). -/
def pMatch (st : PSt) (kinds : List String) : Bool × PSt :=
  if kinds.contains (pPeek st).kind then (true, (pAdvance st).2) else (false, st)

/-- `Parser.error` (syntax_analyzer.py lines 538-539). -/
def pError (st : PSt) (tok : Token) (message : String) (expected : List String) : PSt :=
  { st with errors := st.errors ++
      [{ message := message, line := tok.line, column := tok.column,
         expected := expected, token := some tok }] }

/-- `Parser.synchronize` (syntax_analyzer.py lines 541-547), with fuel. -/
def pSynchronize : Nat → PSt → PSt
  | 0, st => st
  | fuel + 1, st =>
    if pAtEnd st then st
    else if ["SEMICOLON", "RBRACE"].contains (pPeek st).kind then (pAdvance st).2
    else pSynchronize fuel (pAdvance st).2

/-- `Parser.skip_newlines` (syntax_analyzer.py lines 549-551), with fuel. -/
def pSkipNewlines : Nat → PSt → PSt
  | 0, st => st
  | fuel + 1, st =>
    if !(pAtEnd st) && (pPeek st).kind = "NEWLINE" then pSkipNewlines fuel (pAdvance st).2
    else st

/-- `Parser._lookahead_is_function` (syntax_analyzer.py lines 171-177):
a three-token peek; the cursor and errors are restored. -/
def pLookaheadIsFunction (st : PSt) : Bool :=
  let st1 := (pAdvance st).2
  let r1 := pMatch st1 ["IDENTIFIER"]
  r1.1 && (pMatch r1.2 ["LPAREN"]).1

/-- Single-quote a snippet as in the Python messages. -/
def q (s : String) : String :=
  String.singleton (Char.ofNat 39) ++ s ++ String.singleton (Char.ofNat 39)

mutual

/-- `Parser.program` (syntax_analyzer.py lines 116-124). -/
def pProgram : Nat → PSt → PSt
  | 0, st => st
  | f + 1, st =>
    let st := pSkipNewlines (f + 1) st
    let st := pBoundariesOpt f st
    let st := pGlobals f st
    let st := pLoveMain f st
    let st := pSkipNewlines (f + 1) st
    if !(pAtEnd st) then pError st (pPeek st) "Unexpected tokens after program end" []
    else st

/-- `Parser.boundaries_opt` (syntax_analyzer.py lines 126-135). -/
def pBoundariesOpt : Nat → PSt → PSt
  | 0, st => st
  | f + 1, st =>
    if (pPeek st).lexeme = "boundaries" then
      let st := (pAdvance st).2
      let r1 := pMatch st ["IDENTIFIER"]
      let st := if r1.1 then r1.2
        else pError r1.2 (pPeek r1.2) "Expected identifier after boundaries" ["IDENTIFIER"]
      let r2 := pMatch st ["LBRACE"]
      let st := if r2.1 then r2.2
        else pError r2.2 (pPeek r2.2) ("Expected " ++ q "\x7b" ++ " after boundaries name")
          ["\x7b"]
      let st := pGlobals f st
      let r3 := pMatch st ["RBRACE"]
      if r3.1 then r3.2
      else pError r3.2 (pPeek r3.2) ("Expected " ++ q "\x7d" ++ " after boundaries block")
        ["\x7d"]
    else st

/-- `Parser.globals` (syntax_analyzer.py lines 137-144). -/
def pGlobals : Nat → PSt → PSt
  | 0, st => st
  | f + 1, st =>
    if !(pAtEnd st) && (pPeek st).lexeme ≠ "love" then
      let st := pSkipNewlines (f + 1) st
      if pAtEnd st || (pPeek st).lexeme = "love" then st
      else
        let r := pDeclarationOrFunction f st
        let st := if r.1 then r.2 else pSynchronize (f + 1) r.2
        pGlobals f st
    else st

/-- `Parser.love_main` (syntax_analyzer.py lines 146-158). -/
def pLoveMain : Nat → PSt → PSt
  | 0, st => st
  | f + 1, st =>
    let tok := pPeek st
    if tok.lexeme ≠ "love" then
      pError st tok "Program must start with `love` block" ["love"]
    else
      let st := (pAdvance st).2
      let r1 := pMatch st ["IDENTIFIER"]
      let st := if r1.1 then r1.2
        else pError r1.2 (pPeek r1.2) "Expected identifier after `love`" ["IDENTIFIER"]
      let r2 := pMatch st ["LPAREN"]
      let st := if r2.1 then r2.2
        else pError r2.2 (pPeek r2.2) ("Expected " ++ q "(" ++ " after main name") ["("]
      let r3 := pMatch st ["RPAREN"]
      let st := if r3.1 then r3.2
        else pError r3.2 (pPeek r3.2) ("Expected " ++ q ")" ++ " after parameters") [")"]
      pBlock f st

/-- `Parser.declaration_or_function` (syntax_analyzer.py lines 160-169). -/
def pDeclarationOrFunction : Nat → PSt → Bool × PSt
  | 0, st => (false, st)
  | f + 1, st =>
    if !(strHasPrefix "KEYWORD_TYPE" (pPeek st).kind) then (false, st)
    else if pLookaheadIsFunction st then (true, pFunctionDef f st)
    else (true, pDeclaration f st)

/-- `Parser.function_def` (syntax_analyzer.py lines 179-184). -/
def pFunctionDef : Nat → PSt → PSt
  | 0, st => st
  | f + 1, st =>
    let st := (pAdvance st).2
    let r1 := pMatch st ["IDENTIFIER"]
    let st := if r1.1 then r1.2
      else pError r1.2 (pPeek r1.2) "Expected function name" ["IDENTIFIER"]
    let st := pParamList f st
    pBlock f st

/-- `Parser.param_list` (syntax_analyzer.py lines 186-195). -/
def pParamList : Nat → PSt → PSt
  | 0, st => st
  | f + 1, st =>
    let r1 := pMatch st ["LPAREN"]
    if !r1.1 then
      pError r1.2 (pPeek r1.2) ("Expected " ++ q "(" ++ " in parameter list") ["("]
    else
      let st := r1.2
      let st :=
        if strHasPrefix "KEYWORD_TYPE" (pPeek st).kind then
          pParamCommaLoop f (pParam f st)
        else st
      let r2 := pMatch st ["RPAREN"]
      if r2.1 then r2.2
      else pError r2.2 (pPeek r2.2) ("Expected " ++ q ")" ++ " to close parameters") [")"]

/-- The `while self.ts.match("COMMA")` loop of `param_list`. -/
def pParamCommaLoop : Nat → PSt → PSt
  | 0, st => st
  | f + 1, st =>
    let r := pMatch st ["COMMA"]
    if r.1 then pParamCommaLoop f (pParam f r.2) else r.2

/-- `Parser.param` (syntax_analyzer.py lines 197-201). -/
def pParam : Nat → PSt → PSt
  | 0, st => st
  | f + 1, st =>
    let st := (pAdvance st).2
    let r := pMatch st ["IDENTIFIER"]
    let st := if r.1 then r.2
      else pError r.2 (pPeek r.2) "Expected parameter name" ["IDENTIFIER"]
    pArrayDecl f st

/-- `Parser.declaration` (syntax_analyzer.py lines 203-209). -/
def pDeclaration : Nat → PSt → PSt
  | 0, st => st
  | f + 1, st =>
    let st := (pAdvance st).2
    let st := pDeclCommaLoop f (pDeclarator f st)
    let r := pMatch st ["SEMICOLON"]
    if r.1 then r.2
    else pError r.2 (pPeek r.2) ("Expected " ++ q ";" ++ " after declaration") [";"]

/-- The `while self.ts.match("COMMA")` loop of `declaration`. -/
def pDeclCommaLoop : Nat → PSt → PSt
  | 0, st => st
  | f + 1, st =>
    let r := pMatch st ["COMMA"]
    if r.1 then pDeclCommaLoop f (pDeclarator f r.2) else r.2

/-- `Parser.declarator` (syntax_analyzer.py lines 211-217). -/
def pDeclarator : Nat → PSt → PSt
  | 0, st => st
  | f + 1, st =>
    let r := pMatch st ["IDENTIFIER"]
    if !r.1 then
      pError r.2 (pPeek r.2) "Expected identifier in declaration" ["IDENTIFIER"]
    else
      let st := pArrayDecl f r.2
      let ra := pMatch st ["ASSIGN"]
      if ra.1 then pExpr f ra.2 else ra.2

/-- `Parser.array_decl` (syntax_analyzer.py lines 219-227). -/
def pArrayDecl : Nat → PSt → PSt
  | 0, st => st
  | f + 1, st =>
    let r := pMatch st ["LBRACKET"]
    if !r.1 then r.2
    else
      let st := r.2
      let rr := pMatch st ["RBRACKET"]
      if rr.1 then pArrayDecl f rr.2
      else
        let st := rr.2
        let st :=
          if !(["INT_LITERAL", "IDENTIFIER"].contains (pPeek st).kind) then
            pError st (pPeek st) ("Expected array size or " ++ q "]")
              ["]", "INT_LITERAL", "IDENTIFIER"]
          else pExpr f st
        let r2 := pMatch st ["RBRACKET"]
        let st := if r2.1 then r2.2
          else pError r2.2 (pPeek r2.2) ("Expected " ++ q "]") ["]"]
        pArrayDecl f st

/-- `Parser.block` (syntax_analyzer.py lines 229-242). -/
def pBlock : Nat → PSt → PSt
  | 0, st => st
  | f + 1, st =>
    let r := pMatch st ["LBRACE"]
    if !r.1 then
      pError r.2 (pPeek r.2) ("Expected " ++ q "\x7b" ++ " to start block") ["\x7b"]
    else
      let st := pBlockLoop f r.2
      let r2 := pMatch st ["RBRACE"]
      if r2.1 then r2.2
      else pError r2.2 (pPeek r2.2) ("Expected " ++ q "\x7d" ++ " to close block") ["\x7d"]

/-- The statement loop of `block`. -/
def pBlockLoop : Nat → PSt → PSt
  | 0, st => st
  | f + 1, st =>
    if pAtEnd st then st
    else
      let st := pSkipNewlines (f + 1) st
      if (pPeek st).kind = "RBRACE" then st
      else
        let st :=
          if strHasPrefix "KEYWORD_TYPE" (pPeek st).kind then pDeclaration f st
          else pStatement f st
        pBlockLoop f st

/-- `Parser.statement` (syntax_analyzer.py lines 244-277). -/
def pStatement : Nat → PSt → PSt
  | 0, st => st
  | f + 1, st =>
    let st := pSkipNewlines (f + 1) st
    let tok := pPeek st
    if tok.kind = "KEYWORD_IO_GIVE" then pInputStatement f st
    else if tok.kind = "KEYWORD_IO_EXPRESS" then pOutputStatement f st
    else if tok.kind = "KEYWORD_IO_OVERSHARE" then pOvershareStatement f st
    else if tok.kind = "KEYWORD_IF" then pConditionalStatement f st
    else if ["KEYWORD_FOR", "KEYWORD_WHILE", "KEYWORD_DO_WHILE"].contains tok.kind then
      pLoopState f st
    else if tok.kind = "KEYWORD_SWITCH" then pChooseState f st
    else if ["KEYWORD_BREAK", "KEYWORD_CONTINUE"].contains tok.kind then
      pControlFlowStatement f st
    else if tok.kind = "KEYWORD_RETURN" then pComebackStatement f st
    else
      let st := pExpr f st
      let st := pSkipNewlines (f + 1) st
      let r := pMatch st ["SEMICOLON"]
      if r.1 then r.2
      else pError r.2 (pPeek r.2) ("Expected " ++ q ";" ++ " after statement")
        [";", "\x7d"]

/-- `Parser.expr` (syntax_analyzer.py lines 281-282). -/
def pExpr : Nat → PSt → PSt
  | 0, st => st
  | f + 1, st => pAssignment f st

/-- `Parser.assignment` (syntax_analyzer.py lines 284-288). -/
def pAssignment : Nat → PSt → PSt
  | 0, st => st
  | f + 1, st =>
    let st := pLogicalOr f st
    if ["ASSIGN", "OP_PLUS_ASSIGN", "OP_MINUS_ASSIGN", "OP_MUL_ASSIGN", "OP_DIV_ASSIGN",
        "OP_MOD_ASSIGN"].contains (pPeek st).kind then
      pAssignment f (pAdvance st).2
    else st

/-- `Parser.logical_or` (syntax_analyzer.py lines 290-294). -/
def pLogicalOr : Nat → PSt → PSt
  | 0, st => st
  | f + 1, st => pLogicalOrLoop f (pLogicalAnd f st)

/-- The `while OP_OR` loop of `logical_or`. -/
def pLogicalOrLoop : Nat → PSt → PSt
  | 0, st => st
  | f + 1, st =>
    if (pPeek st).kind = "OP_OR" then
      pLogicalOrLoop f (pLogicalAnd f (pAdvance st).2)
    else st

/-- `Parser.logical_and` (syntax_analyzer.py lines 296-300). -/
def pLogicalAnd : Nat → PSt → PSt
  | 0, st => st
  | f + 1, st => pLogicalAndLoop f (pEquality f st)

/-- The `while OP_AND` loop of `logical_and`. -/
def pLogicalAndLoop : Nat → PSt → PSt
  | 0, st => st
  | f + 1, st =>
    if (pPeek st).kind = "OP_AND" then
      pLogicalAndLoop f (pEquality f (pAdvance st).2)
    else st

/-- `Parser.equality` (syntax_analyzer.py lines 302-306). -/
def pEquality : Nat → PSt → PSt
  | 0, st => st
  | f + 1, st => pEqualityLoop f (pComparison f st)

/-- The `while OP_EQ | OP_NEQ` loop of `equality`. -/
def pEqualityLoop : Nat → PSt → PSt
  | 0, st => st
  | f + 1, st =>
    if ["OP_EQ", "OP_NEQ"].contains (pPeek st).kind then
      pEqualityLoop f (pComparison f (pAdvance st).2)
    else st

/-- `Parser.comparison` (syntax_analyzer.py lines 308-312). -/
def pComparison : Nat → PSt → PSt
  | 0, st => st
  | f + 1, st => pComparisonLoop f (pTerm f st)

/-- The relational loop of `comparison`. -/
def pComparisonLoop : Nat → PSt → PSt
  | 0, st => st
  | f + 1, st =>
    if ["GT", "LT", "OP_GTE", "OP_LTE"].contains (pPeek st).kind then
      pComparisonLoop f (pTerm f (pAdvance st).2)
    else st

/-- `Parser.term` (syntax_analyzer.py lines 314-318). -/
def pTerm : Nat → PSt → PSt
  | 0, st => st
  | f + 1, st => pTermLoop f (pFactor f st)

/-- The additive loop of `term`. -/
def pTermLoop : Nat → PSt → PSt
  | 0, st => st
  | f + 1, st =>
    if ["PLUS", "MINUS"].contains (pPeek st).kind then
      pTermLoop f (pFactor f (pAdvance st).2)
    else st

/-- `Parser.factor` (syntax_analyzer.py lines 320-324). -/
def pFactor : Nat → PSt → PSt
  | 0, st => st
  | f + 1, st => pFactorLoop f (pUnary f st)

/-- The multiplicative loop of `factor`. -/
def pFactorLoop : Nat → PSt → PSt
  | 0, st => st
  | f + 1, st =>
    if ["STAR", "SLASH", "PERCENT"].contains (pPeek st).kind then
      pFactorLoop f (pUnary f (pAdvance st).2)
    else st

/-- `Parser.unary` (syntax_analyzer.py lines 326-331). -/
def pUnary : Nat → PSt → PSt
  | 0, st => st
  | f + 1, st =>
    if ["BANG", "MINUS", "OP_INC", "OP_DEC"].contains (pPeek st).kind then
      pUnary f (pAdvance st).2
    else pPrimary f st

/-- `Parser.primary` (syntax_analyzer.py lines 333-346). -/
def pPrimary : Nat → PSt → PSt
  | 0, st => st
  | f + 1, st =>
    let tok := pPeek st
    if ["IDENTIFIER", "INT_LITERAL", "FLOAT_LITERAL", "STRING_LITERAL",
        "BOOL_LITERAL_FALSE", "BOOL_LITERAL_TRUE"].contains tok.kind then
      pPostfixOps f (pAdvance st).2
    else if tok.kind = "LPAREN" then
      let st := pExpr f (pAdvance st).2
      let r := pMatch st ["RPAREN"]
      if r.1 then r.2
      else pError r.2 (pPeek r.2) ("Expected " ++ q ")" ++ " after expression") [")"]
    else
      let st := pError st tok "Expected expression" ["IDENTIFIER", "LITERAL", "("]
      (pAdvance st).2

/-- `Parser.postfix` (syntax_analyzer.py lines 520-534). -/
def pPostfixOps : Nat → PSt → PSt
  | 0, st => st
  | f + 1, st =>
    let r := pMatch st ["LPAREN"]
    if r.1 then
      let st := pCallArgsLoop f r.2
      let rr := pMatch st ["RPAREN"]
      let st := if rr.1 then rr.2
        else pError rr.2 (pPeek rr.2) ("Expected " ++ q ")" ++ " after arguments") [")"]
      pPostfixOps f st
    else
      let rb := pMatch st ["LBRACKET"]
      if rb.1 then
        let st := pExpr f rb.2
        let rr := pMatch st ["RBRACKET"]
        let st := if rr.1 then rr.2
          else pError rr.2 (pPeek rr.2) ("Expected " ++ q "]" ++ " after index") ["]"]
        pPostfixOps f st
      else rb.2

/-- The argument loop inside `postfix`. -/
def pCallArgsLoop : Nat → PSt → PSt
  | 0, st => st
  | f + 1, st =>
    if (pPeek st).kind ≠ "RPAREN" && !(pAtEnd st) then
      let st := pExpr f st
      let r := pMatch st ["COMMA"]
      if r.1 then pCallArgsLoop f r.2 else r.2
    else st

/-- `Parser.input_statement` (syntax_analyzer.py lines 350-359). -/
def pInputStatement : Nat → PSt → PSt
  | 0, st => st
  | f + 1, st =>
    let st := (pAdvance st).2
    let r := pMatch st ["OP_RSHIFT"]
    if !r.1 then pError r.2 (pPeek r.2) ("Expected " ++ q ">>" ++ " after give") [">>"]
    else
      let st := pExpr f r.2
      let st := pSkipNewlines (f + 1) st
      let r2 := pMatch st ["SEMICOLON"]
      if r2.1 then r2.2
      else pError r2.2 (pPeek r2.2) ("Expected " ++ q ";" ++ " after input statement") [";"]

/-- `Parser.output_statement` (syntax_analyzer.py lines 361-370). -/
def pOutputStatement : Nat → PSt → PSt
  | 0, st => st
  | f + 1, st =>
    let st := (pAdvance st).2
    let r := pMatch st ["OP_LSHIFT"]
    if !r.1 then pError r.2 (pPeek r.2) ("Expected " ++ q "<<" ++ " after express") ["<<"]
    else
      let st := pOutputChain f r.2
      let st := pSkipNewlines (f + 1) st
      let r2 := pMatch st ["SEMICOLON"]
      if r2.1 then r2.2
      else pError r2.2 (pPeek r2.2) ("Expected " ++ q ";" ++ " after output statement") [";"]

/-- `Parser.output_chain` (syntax_analyzer.py lines 372-376). -/
def pOutputChain : Nat → PSt → PSt
  | 0, st => st
  | f + 1, st => pOutputChainLoop f (pOutputValue f st)

/-- The `while match OP_LSHIFT` loop of `output_chain`. -/
def pOutputChainLoop : Nat → PSt → PSt
  | 0, st => st
  | f + 1, st =>
    let r := pMatch st ["OP_LSHIFT"]
    if r.1 then pOutputChainLoop f (pOutputValue f r.2) else r.2

/-- `Parser.output_value` (syntax_analyzer.py lines 378-387). -/
def pOutputValue : Nat → PSt → PSt
  | 0, st => st
  | f + 1, st =>
    let tok := pPeek st
    if tok.kind = "KEYWORD_ENDL" then (pAdvance st).2
    else if ["IDENTIFIER", "INT_LITERAL", "FLOAT_LITERAL", "STRING_LITERAL",
        "BOOL_LITERAL_FALSE", "BOOL_LITERAL_TRUE"].contains tok.kind
        || tok.kind = "LPAREN" then
      pExpr f st
    else
      let st := pError st tok ("Expected value after " ++ q "<<")
        ["IDENTIFIER", "LITERAL", "(", "periodt"]
      (pAdvance st).2

/-- `Parser.overshare_statement` (syntax_analyzer.py lines 389-400). -/
def pOvershareStatement : Nat → PSt → PSt
  | 0, st => st
  | f + 1, st =>
    let st := (pAdvance st).2
    let r := pMatch st ["LPAREN"]
    if !r.1 then pError r.2 (pPeek r.2) ("Expected " ++ q "(" ++ " after overshare") ["("]
    else
      let st := pArguments f r.2
      let r2 := pMatch st ["RPAREN"]
      let st := if r2.1 then r2.2
        else pError r2.2 (pPeek r2.2) ("Expected " ++ q ")" ++ " after overshare args") [")"]
      let st := pSkipNewlines (f + 1) st
      let r3 := pMatch st ["SEMICOLON"]
      if r3.1 then r3.2
      else pError r3.2 (pPeek r3.2) ("Expected " ++ q ";" ++ " after overshare") [";"]

/-- `Parser.arguments` (syntax_analyzer.py lines 402-407). -/
def pArguments : Nat → PSt → PSt
  | 0, st => st
  | f + 1, st =>
    if (pPeek st).kind = "RPAREN" then st
    else pArgumentsLoop f (pExpr f st)

/-- The `while match COMMA` loop of `arguments`. -/
def pArgumentsLoop : Nat → PSt → PSt
  | 0, st => st
  | f + 1, st =>
    let r := pMatch st ["COMMA"]
    if r.1 then pArgumentsLoop f (pExpr f r.2) else r.2

/-- `Parser.conditional_statement` (syntax_analyzer.py lines 411-432). -/
def pConditionalStatement : Nat → PSt → PSt
  | 0, st => st
  | f + 1, st =>
    let st := (pAdvance st).2
    let r := pMatch st ["LPAREN"]
    let st :=
      if !r.1 then pError r.2 (pPeek r.2) ("Expected " ++ q "(" ++ " after forever") ["("]
      else
        let st := pExpr f r.2
        let r2 := pMatch st ["RPAREN"]
        if r2.1 then r2.2
        else pError r2.2 (pPeek r2.2) ("Expected " ++ q ")" ++ " after condition") [")"]
    let st := pBlock f st
    let st := pElseifLoop f st
    if (pPeek st).kind = "KEYWORD_ELSE" then pBlock f (pAdvance st).2 else st

/-- The `while KEYWORD_ELSEIF` loop of `conditional_statement`. -/
def pElseifLoop : Nat → PSt → PSt
  | 0, st => st
  | f + 1, st =>
    if (pPeek st).kind = "KEYWORD_ELSEIF" then
      let st := (pAdvance st).2
      let r := pMatch st ["LPAREN"]
      let st :=
        if !r.1 then
          pError r.2 (pPeek r.2) ("Expected " ++ q "(" ++ " after forevermore") ["("]
        else
          let st := pExpr f r.2
          let r2 := pMatch st ["RPAREN"]
          if r2.1 then r2.2
          else pError r2.2 (pPeek r2.2) ("Expected " ++ q ")" ++ " after condition") [")"]
      pElseifLoop f (pBlock f st)
    else st

/-- `Parser.loop_state` (syntax_analyzer.py lines 434-479). -/
def pLoopState : Nat → PSt → PSt
  | 0, st => st
  | f + 1, st =>
    let kind := (pPeek st).kind
    if kind = "KEYWORD_FOR" then
      let st := (pAdvance st).2
      let r := pMatch st ["LPAREN"]
      let st :=
        if !r.1 then pError r.2 (pPeek r.2) ("Expected " ++ q "(" ++ " after for") ["("]
        else
          let st := r.2
          let st :=
            if strHasPrefix "KEYWORD_TYPE" (pPeek st).kind then pDeclaration f st
            else
              let st := pExpr f st
              let rs := pMatch st ["SEMICOLON"]
              if rs.1 then rs.2
              else pError rs.2 (pPeek rs.2) ("Expected " ++ q ";" ++ " after for init") [";"]
          let st := pExpr f st
          let rs2 := pMatch st ["SEMICOLON"]
          let st := if rs2.1 then rs2.2
            else pError rs2.2 (pPeek rs2.2) ("Expected " ++ q ";" ++ " after for condition")
              [";"]
          let st := pExpr f st
          let rr := pMatch st ["RPAREN"]
          if rr.1 then rr.2
          else pError rr.2 (pPeek rr.2) ("Expected " ++ q ")" ++ " after for update") [")"]
      pBlock f st
    else if kind = "KEYWORD_WHILE" then
      let st := (pAdvance st).2
      let r := pMatch st ["LPAREN"]
      let st :=
        if !r.1 then pError r.2 (pPeek r.2) ("Expected " ++ q "(" ++ " after while") ["("]
        else
          let st := pExpr f r.2
          let r2 := pMatch st ["RPAREN"]
          if r2.1 then r2.2
          else pError r2.2 (pPeek r2.2) ("Expected " ++ q ")" ++ " after condition") [")"]
      pBlock f st
    else if kind = "KEYWORD_DO_WHILE" then
      let st := (pAdvance st).2
      let st := pBlock f st
      let rw := pMatch st ["KEYWORD_WHILE"]
      if !rw.1 then
        pError rw.2 (pPeek rw.2) ("Expected " ++ q "while" ++ " after pursue block")
          ["while"]
      else
        let st := rw.2
        let rl := pMatch st ["LPAREN"]
        let st :=
          if !rl.1 then pError rl.2 (pPeek rl.2) ("Expected " ++ q "(" ++ " after while")
            ["("]
          else
            let st := pExpr f rl.2
            let r2 := pMatch st ["RPAREN"]
            if r2.1 then r2.2
            else pError r2.2 (pPeek r2.2) ("Expected " ++ q ")" ++ " after condition") [")"]
        let rs := pMatch st ["SEMICOLON"]
        if rs.1 then rs.2
        else pError rs.2 (pPeek rs.2) ("Expected " ++ q ";" ++ " after pursue while") [";"]
    else st

/-- `Parser.choose_state` (syntax_analyzer.py lines 481-505). -/
def pChooseState : Nat → PSt → PSt
  | 0, st => st
  | f + 1, st =>
    let st := (pAdvance st).2
    let r := pMatch st ["LPAREN"]
    let st :=
      if !r.1 then pError r.2 (pPeek r.2) ("Expected " ++ q "(" ++ " after choose") ["("]
      else
        let st := pExpr f r.2
        let r2 := pMatch st ["RPAREN"]
        if r2.1 then r2.2
        else pError r2.2 (pPeek r2.2) ("Expected " ++ q ")" ++ " after choose expr") [")"]
    let rb := pMatch st ["LBRACE"]
    if !rb.1 then
      pError rb.2 (pPeek rb.2) ("Expected " ++ q "\x7b" ++ " after choose") ["\x7b"]
    else
      let st := pPhaseLoop f rb.2
      let st :=
        if (pPeek st).lexeme = "bareminimum" then
          let st := (pAdvance st).2
          let rc := pMatch st ["COLON"]
          let st := if rc.1 then rc.2
            else pError rc.2 (pPeek rc.2) ("Expected " ++ q ":" ++ " after bareminimum")
              [":"]
          pBlock f st
        else st
      let rr := pMatch st ["RBRACE"]
      if rr.1 then rr.2
      else pError rr.2 (pPeek rr.2) ("Expected " ++ q "\x7d" ++ " after choose cases")
        ["\x7d"]

/-- The `while phase` loop of `choose_state`. -/
def pPhaseLoop : Nat → PSt → PSt
  | 0, st => st
  | f + 1, st =>
    if (pPeek st).lexeme = "phase" then
      let st := (pAdvance st).2
      let st := pExpr f st
      let rc := pMatch st ["COLON"]
      let st := if rc.1 then rc.2
        else pError rc.2 (pPeek rc.2) ("Expected " ++ q ":" ++ " after phase value") [":"]
      pPhaseLoop f (pBlock f st)
    else st

/-- `Parser.control_flow_statement` (syntax_analyzer.py lines 507-511). -/
def pControlFlowStatement : Nat → PSt → PSt
  | 0, st => st
  | _f + 1, st =>
    let st := (pAdvance st).2
    let r := pMatch st ["SEMICOLON"]
    if r.1 then r.2
    else pError r.2 (pPeek r.2) ("Expected " ++ q ";" ++ " after control flow statement")
      [";"]

/-- `Parser.comeback_statement` (syntax_analyzer.py lines 513-518). -/
def pComebackStatement : Nat → PSt → PSt
  | 0, st => st
  | f + 1, st =>
    let st := (pAdvance st).2
    let st := if (pPeek st).kind ≠ "SEMICOLON" then pExpr f st else st
    let r := pMatch st ["SEMICOLON"]
    if r.1 then r.2
    else pError r.2 (pPeek r.2) ("Expected " ++ q ";" ++ " after return") [";"]

end

/-! ## Parse entry point (syntax_analyzer.py lines 87-113) -/

/-- The token record embedded in error payloads (`ParseError.to_payload`
and `make_error`). -/
structure ErrTokenRef where
  lexeme : String
  kind : String
  line : Nat
  column : Nat
deriving DecidableEq, Repr

/-- `make_error` (syntax_errors.py lines 8-31). -/
structure SyntaxErrRec where
  ok : Bool
  code : String
  message : String
  expected : List String
  token : ErrTokenRef
deriving DecidableEq, Repr

/-- `make_error` builds one serialized error record. -/
def makeError (message : String) (token : Option Token) (expected : List String) :
    SyntaxErrRec :=
  { ok := false, code := "ERR_SYNTAX", message := message, expected := expected,
    token :=
      { lexeme := (token.map Token.lexeme).getD ""
        kind := (token.map Token.kind).getD "EOF"
        line := (token.map Token.line).getD 0
        column := (token.map Token.column).getD 0 } }

/-- The `token` field of `ParseError.to_payload` (syntax_analyzer.py
lines 63-76): lexeme and kind from the offending token, position from
the recorded error. -/
def parseErrTokenRef (e : ParseErr) : ErrTokenRef :=
  { lexeme := (e.token.map Token.lexeme).getD ""
    kind := (e.token.map Token.kind).getD "EOF"
    line := e.line
    column := e.column }

/-- The failure payload returned by `Parser.parse` on errors. -/
structure ParseFailPayload where
  ok : Bool
  message : String
  code : String
  expected : List String
  token : ErrTokenRef
  errors : List SyntaxErrRec
deriving DecidableEq, Repr

/-- The payload of `Parser.parse`: token rows on success, the error
payload otherwise. -/
inductive ParsePayload where
  | rows (rs : List TokenRow)
  | fail (p : ParseFailPayload)
deriving DecidableEq, Repr

/-- Fuel for the recursive-descent parser; any bound at least the
nesting depth of the program works, and the runs in this file stay far
below it. -/
def parserFuel (tokens : List Token) : Nat := 10 * tokens.length + 100

/-- `Parser.parse` (syntax_analyzer.py lines 87-113).  The defensive
`except` branch of the source catches exceptions that the total model
cannot raise, so it has no counterpart here. -/
def parserParse (tokens : List Token) : Bool × ParsePayload :=
  let st := pProgram (parserFuel tokens) { tokens := tokens, pos := 0, errors := [] }
  match st.errors with
  | [] => (true, .rows (tokensAsRows st.tokens))
  | first :: _ =>
    (false, .fail {
      ok := false
      message := first.message
      code := "ERR_SYNTAX"
      expected := first.expected
      token := parseErrTokenRef first
      errors := st.errors.map (fun e => makeError e.message e.token e.expected) })

/-! ## Cursor lemmas -/

theorem advance1_rest (st : LexState) : (advance1 st).2.rest = st.rest.tail := by
  obtain ⟨rest, line, col⟩ := st
  unfold advance1
  cases rest with
  | nil => rfl
  | cons c rs => by_cases h : c = '\n' <;> simp [h]

theorem advanceN_rest (n : Nat) (st : LexState) :
    (advanceN st n).rest = st.rest.drop n := by
  induction n generalizing st with
  | zero => rfl
  | succ m ih =>
    show (advanceN (advance1 st).2 m).rest = _
    rw [ih, advance1_rest, ← List.drop_one, List.drop_drop, Nat.add_comm]

theorem advanceN_rest_length (n : Nat) (st : LexState) :
    (advanceN st n).rest.length ≤ st.rest.length := by
  rw [advanceN_rest]; simp [List.length_drop]

theorem matchCh_rest_length (st : LexState) (e : Char) :
    (matchCh st e).2.rest.length ≤ st.rest.length := by
  obtain ⟨rest, line, col⟩ := st
  unfold matchCh
  cases rest with
  | nil => simp
  | cons c rs => by_cases h : c = e <;> simp [h]

theorem identifierToken_st (ch : Char) (st1 : LexState) (l c : Nat) :
    (identifierToken ch st1 l c).st =
      advanceN st1 (st1.rest.takeWhile isIdentPart).length := by
  unfold identifierToken
  dsimp only
  repeat' split
  all_goals rfl

theorem finishNumber_st (kind : String) (lex : List Char) (st2 : LexState) (l c : Nat) :
    (finishNumber kind lex st2 l c).st = st2 := by
  unfold finishNumber
  dsimp only
  repeat' split
  all_goals rfl

theorem numberToken_rest_length (ch : Char) (st1 : LexState) (l c : Nat) :
    (numberToken ch st1 l c).st.rest.length ≤ st1.rest.length := by
  unfold numberToken
  dsimp only
  split
  · rw [finishNumber_st]
    exact Nat.le_trans (advanceN_rest_length _ _) (advanceN_rest_length _ _)
  · rw [finishNumber_st]; exact advanceN_rest_length _ _

theorem stringToken_rest_length (quote : Char) (st1 : LexState) (l c : Nat) :
    (stringToken quote st1 l c).st.rest.length ≤ st1.rest.length := by
  unfold stringToken
  dsimp only
  split
  · simp [Step.st]
  · split <;> simp [Step.st, advanceN_rest_length]

theorem scanSingle_rest_length (ch : Char) (st1 : LexState) (sl sc : Nat) :
    (scanSingle ch st1 sl sc).st.rest.length ≤ st1.rest.length := by
  unfold scanSingle
  dsimp only
  split
  · simp [Step.st]
  · split
    · simp [Step.st]
    · split
      · -- line comment
        simp only [Step.st]
        exact Nat.le_trans (advanceN_rest_length _ _) (matchCh_rest_length _ _)
      · split
        · -- block comment
          split <;> simp only [Step.st] <;>
            exact Nat.le_trans (advanceN_rest_length _ _) (matchCh_rest_length _ _)
        · split
          · exact stringToken_rest_length _ _ _ _
          · split
            · exact numberToken_rest_length _ _ _ _
            · split
              · rw [identifierToken_st]; exact advanceN_rest_length _ _
              · split
                · -- two-char operator
                  split <;> simp only [Step.st] <;>
                    (rw [advance1_rest]; simp [List.length_tail])
                · split
                  · split <;> simp [Step.st]
                  · simp [Step.st]

theorem advance1_rest_lt (st : LexState) (h : st.rest ≠ []) :
    (advance1 st).2.rest.length < st.rest.length := by
  rw [advance1_rest, List.length_tail]
  have hlen : st.rest.length ≠ 0 := by simpa [List.length_eq_zero] using h
  omega

theorem recoverAfterError_rest_length (st : LexState) :
    (recoverAfterError st).rest.length ≤ st.rest.length := by
  unfold recoverAfterError
  dsimp only
  refine Nat.le_trans (advanceN_rest_length _ _) ?_
  split
  · exact Nat.le_refl _
  · rw [advance1_rest]; simp [List.length_tail]

theorem scanTokensFuel_isSome (fuel : Nat) :
    ∀ st acc, st.rest.length < fuel → (scanTokensFuel fuel st acc).isSome = true := by
  induction fuel with
  | zero => intro st acc h; exact absurd h (Nat.not_lt_zero _)
  | succ f ih =>
    intro st acc h
    unfold scanTokensFuel
    dsimp only
    split
    · simp
    · rename_i hne
      split
      · rename_i st2 new heq
        apply ih
        have h1 : st2 = (scanSingle (advance1 st).1 (advance1 st).2 st.line st.column).st := by
          rw [heq]
          rfl
        have h2 := scanSingle_rest_length (advance1 st).1 (advance1 st).2 st.line st.column
        have h3 : st.rest ≠ [] := by
          intro hemp
          exact hne (by simp [hemp])
        have h4 := advance1_rest_lt st h3
        rw [h1]
        omega
      · simp

theorem scanCollectFuel_isSome (fuel : Nat) :
    ∀ st acc errs, st.rest.length < fuel →
      (scanCollectFuel fuel st acc errs).isSome = true := by
  induction fuel with
  | zero => intro st acc errs h; exact absurd h (Nat.not_lt_zero _)
  | succ f ih =>
    intro st acc errs h
    unfold scanCollectFuel
    dsimp only
    split
    · simp
    · rename_i hne
      have h3 : st.rest ≠ [] := by
        intro hemp
        exact hne (by simp [hemp])
      have h4 := advance1_rest_lt st h3
      have h2 := scanSingle_rest_length (advance1 st).1 (advance1 st).2 st.line st.column
      split
      · rename_i st2 new heq
        apply ih
        have h1 : st2 = (scanSingle (advance1 st).1 (advance1 st).2 st.line st.column).st := by
          rw [heq]
          rfl
        rw [h1]
        omega
      · rename_i msg st2 new heq
        apply ih
        have h1 : st2 = (scanSingle (advance1 st).1 (advance1 st).2 st.line st.column).st := by
          rw [heq]
          rfl
        rw [h1]
        have h5 := recoverAfterError_rest_length
          (scanSingle (advance1 st).1 (advance1 st).2 st.line st.column).st
        omega

/-- C9: both scanning loops terminate on every finite source.  Each
iteration consumes at least the one character read by `_advance` and the
dispatched helpers never move the cursor backwards, so the loop measure
(the unread suffix) shrinks strictly and fuel one larger than the source
length always suffices: the fuel-indexed loops return a result rather
than running out. -/
theorem claim9_scan_terminates (src : List Char) :
    (scanTokensFuel (src.length + 1) (initState src) []).isSome = true ∧
    (scanCollectFuel (src.length + 1) (initState src) [] []).isSome = true :=
  ⟨scanTokensFuel_isSome _ _ _ (Nat.lt_succ_self _),
   scanCollectFuel_isSome _ _ _ _ (Nat.lt_succ_self _)⟩

/-! ## Emitted token kinds -/

/-- The token kinds of `RESERVED_WORDS`. -/
def reservedKindsList : List String :=
  ["KEYWORD_IO_GIVE", "KEYWORD_IO_EXPRESS", "KEYWORD_IO_OVERSHARE", "KEYWORD_TYPE_INT",
   "KEYWORD_TYPE_FLOAT", "KEYWORD_TYPE_STRING", "KEYWORD_TYPE_BOOL", "KEYWORD_IF",
   "KEYWORD_ELSE", "KEYWORD_ELSEIF", "KEYWORD_SWITCH", "KEYWORD_CASE", "KEYWORD_DEFAULT",
   "KEYWORD_FOR", "KEYWORD_WHILE", "KEYWORD_DO_WHILE", "KEYWORD_BREAK", "KEYWORD_CONTINUE",
   "KEYWORD_MAIN", "KEYWORD_ENDL", "KEYWORD_CONST", "BOOL_LITERAL_FALSE",
   "BOOL_LITERAL_TRUE", "KEYWORD_NAMESPACE", "KEYWORD_RETURN"]

theorem reservedWords_kind_mem {w : String} {e : String × String}
    (h : reservedWords w = some e) : e.1 ∈ reservedKindsList := by
  unfold reservedWords at h
  split at h <;> first
    | (injection h with h2; subst h2; decide)
    | exact Option.noConfusion h

theorem multiCharOperators_kind {s k : String} (h : multiCharOperators s = some k) :
    k ≠ "EOF" ∧ k ≠ "FLOAT_LITERAL" := by
  unfold multiCharOperators at h
  split at h <;> first
    | (injection h with h2; subst h2; decide)
    | exact Option.noConfusion h

theorem singleCharTokens_kind {c : Char} {k : String} (h : singleCharTokens c = some k) :
    k ≠ "EOF" ∧ k ≠ "FLOAT_LITERAL" := by
  unfold singleCharTokens at h
  split at h <;> first
    | (injection h with h2; subst h2; decide)
    | exact Option.noConfusion h

theorem identifierToken_kinds (ch : Char) (st1 : LexState) (l c : Nat) :
    ∀ t ∈ (identifierToken ch st1 l c).toks,
      t.kind = "IDENTIFIER" ∨ ∃ cp, reservedWords t.lexeme = some (t.kind, cp) := by
  unfold identifierToken
  dsimp only
  repeat' split
  all_goals intro t ht
  all_goals simp only [Step.toks, List.mem_singleton, List.not_mem_nil] at ht
  all_goals subst ht
  all_goals first
    | exact Or.inl rfl
    | (right; exact ⟨_, by assumption⟩)

theorem finishNumber_toks_kind (kind : String) (lex : List Char) (st2 : LexState)
    (l c : Nat) : ∀ t ∈ (finishNumber kind lex st2 l c).toks, t.kind = kind := by
  unfold finishNumber
  dsimp only
  repeat' split
  all_goals intro t ht
  all_goals simp only [Step.toks, List.mem_singleton, List.not_mem_nil] at ht
  all_goals subst ht
  all_goals rfl

theorem numberToken_toks_kind (ch : Char) (st1 : LexState) (l c : Nat) :
    ∀ t ∈ (numberToken ch st1 l c).toks,
      t.kind = "INT_LITERAL" ∨ t.kind = "FLOAT_LITERAL" := by
  unfold numberToken
  dsimp only
  split
  · intro t ht
    exact Or.inr (finishNumber_toks_kind _ _ _ _ _ t ht)
  · intro t ht
    exact Or.inl (finishNumber_toks_kind _ _ _ _ _ t ht)

theorem stringToken_toks_kind (quote : Char) (st1 : LexState) (l c : Nat) :
    ∀ t ∈ (stringToken quote st1 l c).toks, t.kind = "STRING_LITERAL" := by
  unfold stringToken
  dsimp only
  repeat' split
  all_goals intro t ht
  all_goals simp only [Step.toks, List.mem_singleton, List.not_mem_nil] at ht
  all_goals subst ht
  all_goals rfl

theorem scanSingle_toks_ne_eof (ch : Char) (st1 : LexState) (sl sc : Nat) :
    ∀ t ∈ (scanSingle ch st1 sl sc).toks, t.kind ≠ "EOF" := by
  unfold scanSingle
  dsimp only
  split
  · simp [Step.toks]
  · split
    · intro t ht
      simp only [Step.toks, List.mem_singleton] at ht
      subst ht
      show ("NEWLINE" : String) ≠ "EOF"
      decide
    · split
      · simp [Step.toks]
      · split
        · split <;> simp [Step.toks]
        · split
          · intro t ht
            rw [stringToken_toks_kind _ _ _ _ t ht]
            decide
          · split
            · intro t ht
              rcases numberToken_toks_kind _ _ _ _ t ht with h | h <;> rw [h] <;> decide
            · split
              · intro t ht
                rcases identifierToken_kinds _ _ _ _ t ht with h | ⟨cp, h⟩
                · rw [h]; decide
                · have hmem := reservedWords_kind_mem h
                  intro hk
                  rw [hk] at hmem
                  dsimp only at hmem
                  exact absurd hmem (by decide)
              · split
                · split
                  · simp [Step.toks]
                  · intro t ht
                    simp only [Step.toks, List.mem_singleton] at ht
                    subst ht
                    rename_i kind heq _ _
                    exact (multiCharOperators_kind heq).1
                · split
                  · split
                    · simp [Step.toks]
                    · intro t ht
                      simp only [Step.toks, List.mem_singleton] at ht
                      subst ht
                      rename_i kind heq _ _
                      exact (singleCharTokens_kind heq).1
                  · simp [Step.toks]

/-! ## C2: the EOF sentinel -/

/-- A token vector that ends with its only `EOF`-kind token. -/
def endsWithUniqueEOF (ts : List Token) : Prop :=
  ∃ front last, ts = front ++ [last] ∧ last.kind = "EOF" ∧
    ∀ u ∈ front, u.kind ≠ "EOF"

theorem scanTokensFuel_eof (fuel : Nat) :
    ∀ st acc ts, (∀ t ∈ acc, t.kind ≠ "EOF") →
      scanTokensFuel fuel st acc = some (.ok ts) → endsWithUniqueEOF ts := by
  induction fuel with
  | zero => intro st acc ts h heq; exact Option.noConfusion heq
  | succ f ih =>
    intro st acc ts h heq
    unfold scanTokensFuel at heq
    dsimp only at heq
    split at heq
    · injection heq with hts
      injection hts with hts2
      exact ⟨acc, eofToken st, hts2.symm, rfl, h⟩
    · split at heq
      · rename_i st2 new hstep
        refine ih st2 (acc ++ new) ts ?_ heq
        intro t ht
        rcases List.mem_append.1 ht with h1 | h1
        · exact h t h1
        · have := scanSingle_toks_ne_eof (advance1 st).1 (advance1 st).2 st.line st.column
          rw [hstep] at this
          exact this t h1
      · injection heq with hts
        exact ScanOut.noConfusion hts

/-! ## Projections used by the concrete claims -/

/-- The message of a fail-fast scan outcome, when it is an error. -/
def scanOutMsg : ScanOut → Option String
  | .ok _ => none
  | .err msg _ => some msg

/-- Whether a fail-fast scan outcome is an error. -/
def isErrOut : ScanOut → Bool
  | .ok _ => false
  | .err _ _ => true

/-- Whether a single-token step raised. -/
def isErrStep : Step → Bool
  | .ok _ _ => false
  | .err _ _ _ => true

/-- The primary data of a failure payload: message, expected list,
offending lexeme and line. -/
def payloadFailInfo : ParsePayload → Option (String × List String × String × Nat)
  | .fail p => some (p.message, p.expected, p.token.lexeme, p.token.line)
  | .rows _ => none

/-! ## C1: the happy-path scenario -/

/-- The scenario-1 source. -/
def c1Src : List Char :=
  "love main() \x7b dear x = 5; express << x << periodt; \x7d".data

/-- The token vector of the scenario-1 source. -/
def c1Tokens : List Token :=
  [⟨"KEYWORD_MAIN", "love", none, 1, 1, some "love"⟩,
   ⟨"IDENTIFIER", "main", none, 1, 6, none⟩,
   ⟨"LPAREN", "(", none, 1, 10, none⟩,
   ⟨"RPAREN", ")", none, 1, 11, none⟩,
   ⟨"LBRACE", "\x7b", none, 1, 13, none⟩,
   ⟨"KEYWORD_TYPE_INT", "dear", none, 1, 15, some "dear"⟩,
   ⟨"IDENTIFIER", "x", none, 1, 20, none⟩,
   ⟨"ASSIGN", "=", none, 1, 22, none⟩,
   ⟨"INT_LITERAL", "5", some "5", 1, 24, none⟩,
   ⟨"SEMICOLON", ";", none, 1, 25, none⟩,
   ⟨"KEYWORD_IO_EXPRESS", "express", none, 1, 27, some "express"⟩,
   ⟨"OP_LSHIFT", "<<", none, 1, 35, none⟩,
   ⟨"IDENTIFIER", "x", none, 1, 38, none⟩,
   ⟨"OP_LSHIFT", "<<", none, 1, 40, none⟩,
   ⟨"KEYWORD_ENDL", "periodt", none, 1, 43, some "periodt"⟩,
   ⟨"SEMICOLON", ";", none, 1, 50, none⟩,
   ⟨"RBRACE", "\x7d", none, 1, 52, none⟩,
   ⟨"EOF", "", none, 1, 53, none⟩]

/-- C1: scanning the scenario-1 source succeeds with the tokens above;
parsing them returns ok together with the token-row projection, whose
`lexeme` fields are exactly love, main, (, ), {, dear, x, =, 5, ;,
express, <<, x, <<, periodt, ;, }. -/
theorem claim1_happy_path_rows :
    scanTokens c1Src = ScanOut.ok c1Tokens ∧
    parserParse c1Tokens = (true, ParsePayload.rows (tokensAsRows c1Tokens)) ∧
    (tokensAsRows c1Tokens).map TokenRow.lexeme =
      ["love", "main", "(", ")", "\x7b", "dear", "x", "=", "5", ";",
       "express", "<<", "x", "<<", "periodt", ";", "\x7d"] :=
  ⟨rfl, rfl, by decide⟩

/-! ## C7: the missing-semicolon scenario -/

/-- The scenario-6 source `love main() \x7b dear x = 5 \x7d`. -/
def c7Src : List Char := "love main() \x7b dear x = 5 \x7d".data

/-- The token vector of the scenario-6 source. -/
def c7Tokens : List Token :=
  [⟨"KEYWORD_MAIN", "love", none, 1, 1, some "love"⟩,
   ⟨"IDENTIFIER", "main", none, 1, 6, none⟩,
   ⟨"LPAREN", "(", none, 1, 10, none⟩,
   ⟨"RPAREN", ")", none, 1, 11, none⟩,
   ⟨"LBRACE", "\x7b", none, 1, 13, none⟩,
   ⟨"KEYWORD_TYPE_INT", "dear", none, 1, 15, some "dear"⟩,
   ⟨"IDENTIFIER", "x", none, 1, 20, none⟩,
   ⟨"ASSIGN", "=", none, 1, 22, none⟩,
   ⟨"INT_LITERAL", "5", some "5", 1, 24, none⟩,
   ⟨"RBRACE", "\x7d", none, 1, 26, none⟩,
   ⟨"EOF", "", none, 1, 27, none⟩]

/-- C7: parsing `love main() \x7b dear x = 5 \x7d` fails, and the
primary error has the message Expected-semicolon-after-declaration (with
the semicolon single-quoted), expected list containing only the semicolon, and the offending token is
the closing brace on line 1. -/
theorem claim7_missing_semicolon :
    scanTokens c7Src = ScanOut.ok c7Tokens ∧
    (parserParse c7Tokens).1 = false ∧
    payloadFailInfo (parserParse c7Tokens).2 =
      some ("Expected " ++ q ";" ++ " after declaration", [";"], "\x7d", 1) :=
  ⟨rfl, rfl, rfl⟩

/-! ## C6: the identifier-length scenario -/

/-- The scenario-2 source with a 21-character identifier. -/
def c6Src : List Char := "love main() \x7b dear abcdefghijklmnopqrstu = 1; \x7d".data

/-- The identifier-too-long message the lexer actually produces: the
identifier starts at column 20 (19 characters precede it), and
`_identifier_token` reports the recorded start position. -/
def c6Msg : String :=
  "Identifier `abcdefghijklmnopqrstu` exceeds the maximum length of 20 characters at 1:20"

/-- The message the specification scenario states, with column 19. -/
def c6MsgSpec : String :=
  "Identifier `abcdefghijklmnopqrstu` exceeds the maximum length of 20 characters at 1:19"

/-- C6 counterexample: on the scenario-2 source the collect-mode scan
records exactly one error, whose message reports column 20, not the
column 19 claimed by the specification. -/
theorem claim6_column_counterexample :
    (scanTokensCollectErrors c6Src).2 = [c6Msg] ∧ (c6Msg = c6MsgSpec) = False :=
  ⟨rfl, by decide⟩

/-- C6 amended: tokenizing the scenario-2 source raises (fail-fast) and
records (collect mode) exactly the identifier-too-long error at line 1,
column 20 - the identifier begins at column 20, one to the right of the
position the specification quotes. -/
theorem claim6_identifier_too_long :
    scanOutMsg (scanTokens c6Src) = some c6Msg ∧
    (scanTokensCollectErrors c6Src).2 = [c6Msg] :=
  ⟨rfl, rfl⟩

/-! ## C8: round-tripping the lexemes -/

/-- The token vector of a successful scan outcome. -/
def scanOkToks : ScanOut → Option (List Token)
  | .ok ts => some ts
  | .err _ _ => none

/-- The position-independent content of a token: kind, lexeme, literal. -/
def tokenCore (t : Token) : String × String × Option String :=
  (t.kind, t.lexeme, t.literal)

/-- The tokens of the one-character source consisting of a newline. -/
def c8NlTokens : List Token :=
  [⟨"NEWLINE", "\\n", none, 1, 1, none⟩, ⟨"EOF", "", none, 2, 1, none⟩]

/-- C8 counterexample: scanning the source consisting of a single
newline succeeds, but re-tokenizing the space-joined lexemes fails
outright: the `NEWLINE` token's lexeme is the two-character text
backslash-n, and a backslash is no token. -/
theorem claim8_roundtrip_counterexample :
    scanTokens ['\n'] = ScanOut.ok c8NlTokens ∧
    isErrOut (scanTokens (unparseTokens c8NlTokens)) = true :=
  ⟨rfl, rfl⟩

/-- A round-trippable source covering keywords, identifiers, operators,
an integer literal and punctuation. -/
def c8aSrc : List Char := "love main() \x7b dear x = 5; express << x; \x7d".data

/-- The token vector of `c8aSrc`. -/
def c8aTokens : List Token :=
  [⟨"KEYWORD_MAIN", "love", none, 1, 1, some "love"⟩,
   ⟨"IDENTIFIER", "main", none, 1, 6, none⟩,
   ⟨"LPAREN", "(", none, 1, 10, none⟩,
   ⟨"RPAREN", ")", none, 1, 11, none⟩,
   ⟨"LBRACE", "\x7b", none, 1, 13, none⟩,
   ⟨"KEYWORD_TYPE_INT", "dear", none, 1, 15, some "dear"⟩,
   ⟨"IDENTIFIER", "x", none, 1, 20, none⟩,
   ⟨"ASSIGN", "=", none, 1, 22, none⟩,
   ⟨"INT_LITERAL", "5", some "5", 1, 24, none⟩,
   ⟨"SEMICOLON", ";", none, 1, 25, none⟩,
   ⟨"KEYWORD_IO_EXPRESS", "express", none, 1, 27, some "express"⟩,
   ⟨"OP_LSHIFT", "<<", none, 1, 35, none⟩,
   ⟨"IDENTIFIER", "x", none, 1, 38, none⟩,
   ⟨"SEMICOLON", ";", none, 1, 39, none⟩,
   ⟨"RBRACE", "\x7d", none, 1, 41, none⟩,
   ⟨"EOF", "", none, 1, 42, none⟩]

/-- A round-trippable source covering float normalization and string
literals. -/
def c8bSrc : List Char := "dearest f = 0012.3400 - y ; rant s = \"hi\" ;".data

/-- The token vector of `c8bSrc`. -/
def c8bTokens : List Token :=
  [⟨"KEYWORD_TYPE_FLOAT", "dearest", none, 1, 1, some "dearest"⟩,
   ⟨"IDENTIFIER", "f", none, 1, 9, none⟩,
   ⟨"ASSIGN", "=", none, 1, 11, none⟩,
   ⟨"FLOAT_LITERAL", "0012.3400", some "12.34", 1, 13, none⟩,
   ⟨"MINUS", "-", none, 1, 23, none⟩,
   ⟨"IDENTIFIER", "y", none, 1, 25, none⟩,
   ⟨"SEMICOLON", ";", none, 1, 27, none⟩,
   ⟨"KEYWORD_TYPE_STRING", "rant", none, 1, 29, some "rant"⟩,
   ⟨"IDENTIFIER", "s", none, 1, 34, none⟩,
   ⟨"ASSIGN", "=", none, 1, 36, none⟩,
   ⟨"STRING_LITERAL", "\"hi\"", some "hi", 1, 38, none⟩,
   ⟨"SEMICOLON", ";", none, 1, 43, none⟩,
   ⟨"EOF", "", none, 1, 44, none⟩]

/-- C8 amended: re-tokenizing the space-joined lexemes can fail outright
(a `NEWLINE` lexeme is the two-character backslash-n text, and reserved
words such as periodt whose follow set lacks the space reject the
inserted blank), so idempotence does not hold for every source; for
sources free of such tokens it does hold up to positions, verified here
on the two sources above: re-tokenizing the space-joined lexemes
succeeds and reproduces the kinds, lexemes and literals exactly. -/
theorem claim8_roundtrip_concrete :
    scanTokens c8aSrc = ScanOut.ok c8aTokens ∧
    (scanOkToks (scanTokens (unparseTokens c8aTokens))).map (List.map tokenCore) =
      some (c8aTokens.map tokenCore) ∧
    scanTokens c8bSrc = ScanOut.ok c8bTokens ∧
    (scanOkToks (scanTokens (unparseTokens c8bTokens))).map (List.map tokenCore) =
      some (c8bTokens.map tokenCore) :=
  ⟨rfl, rfl, rfl, rfl⟩

/-! ## C5 counterexample: a float token emitted on the error path -/

/-- C5 counterexample: on source `1.50@` the collect-mode scan returns a
`FLOAT_LITERAL` token (appended by `_number_token` just before the
invalid-delimiter error) whose `literal` field is the raw lexeme `1.50`,
not the normalized form `1.5`. -/
theorem claim5_unnormalized_counterexample :
    (scanTokensCollectErrors "1.50@".data).1 =
      [⟨"FLOAT_LITERAL", "1.50", some "1.50", 1, 1, none⟩,
       ⟨"EOF", "", none, 1, 6, none⟩] ∧
    (some "1.50" = some (floatNormalize "1.50")) = False :=
  ⟨rfl, by decide⟩

/-! ## C3: globals-only streams -/

/-- A minimal well-formed global declaration, `dear <name> ;`. -/
def simpleGlobalDecl (name : String) : List Token :=
  [⟨"KEYWORD_TYPE_INT", "dear", none, 1, 1, some "dear"⟩,
   ⟨"IDENTIFIER", name, none, 1, 6, none⟩,
   ⟨"SEMICOLON", ";", none, 1, 7, none⟩]

/-- `n` consecutive copies of the declaration `dear <name> ;`. -/
def simpleGlobalDecls (name : String) : Nat → List Token
  | 0 => []
  | n + 1 => simpleGlobalDecl name ++ simpleGlobalDecls name n

/-- C3 counterexample: a non-empty stream consisting solely of
well-formed global declarations, with no `love` token, is accepted by
`validate_program_structure` (with the globals-only message), not
rejected as the claim states. -/
theorem claim3_globals_only_counterexample :
    validateProgramStructure (simpleGlobalDecls "x" 1) =
      verdictSuccess "Structure looks valid (globals only)." ∧
    (validateProgramStructure (simpleGlobalDecls "x" 1)).ok = true :=
  ⟨rfl, rfl⟩

theorem simpleGlobalDecls_filter (name : String) (n : Nat) :
    (simpleGlobalDecls name n).filter (fun t => !(ignoredKinds.contains t.kind)) =
      simpleGlobalDecls name n := by
  induction n with
  | zero => rfl
  | succ m ih =>
    show List.filter _ (simpleGlobalDecl name ++ simpleGlobalDecls name m) = _
    rw [List.filter_append, ih]
    rfl

theorem simpleGlobalDecls_length (name : String) (n : Nat) :
    (simpleGlobalDecls name n).length = 3 * n := by
  induction n with
  | zero => rfl
  | succ m ih =>
    show (simpleGlobalDecl name ++ simpleGlobalDecls name m).length = _
    rw [List.length_append, ih]
    simp [simpleGlobalDecl]
    omega

theorem simpleGlobalDecls_balanced (name : String) (n : Nat)
    (hname : name ∉ (["(", ")", "[", "]", "\x7b", "\x7d", "love"] : List String)) :
    ∀ stack, checkBalancedAux (simpleGlobalDecls name n) stack =
      checkBalancedAux [] stack := by
  have hopen : delimOpenToClose name = none := by
    unfold delimOpenToClose
    split <;> simp_all
  have hclose : delimCloseToOpen name = none := by
    unfold delimCloseToOpen
    split <;> simp_all
  induction n with
  | zero => intro stack; rfl
  | succ m ih =>
    intro stack
    show checkBalancedAux
      (⟨"KEYWORD_TYPE_INT", "dear", none, 1, 1, some "dear"⟩ ::
        ⟨"IDENTIFIER", name, none, 1, 6, none⟩ ::
        ⟨"SEMICOLON", ";", none, 1, 7, none⟩ :: simpleGlobalDecls name m) stack = _
    rw [show ∀ rest stack, checkBalancedAux
        (⟨"KEYWORD_TYPE_INT", "dear", none, 1, 1, some "dear"⟩ :: rest) stack =
        checkBalancedAux rest stack from fun _ _ => rfl]
    conv_lhs => rw [checkBalancedAux]
    rw [if_neg (by simp [hopen])]
    rw [show delimCloseToOpen (Token.lexeme ⟨"IDENTIFIER", name, none, 1, 6, none⟩) =
        none from hclose]
    exact ih stack

theorem simpleGlobalDecls_declLoop (name : String) :
    ∀ n fuel, n < fuel →
      declLoop fuel (simpleGlobalDecls name n) = .ok (simpleGlobalDecls name 0) := by
  intro n
  induction n with
  | zero =>
    intro fuel hf
    match fuel, hf with
    | f + 1, _ => rfl
  | succ m ih =>
    intro fuel hf
    match fuel, hf with
    | f + 1, hf =>
      show declLoop (f + 1)
        (⟨"KEYWORD_TYPE_INT", "dear", none, 1, 1, some "dear"⟩ ::
          ⟨"IDENTIFIER", name, none, 1, 6, none⟩ ::
          ⟨"SEMICOLON", ";", none, 1, 7, none⟩ :: simpleGlobalDecls name m) = _
      have hstep : declLoop (f + 1)
          (⟨"KEYWORD_TYPE_INT", "dear", none, 1, 1, some "dear"⟩ ::
            ⟨"IDENTIFIER", name, none, 1, 6, none⟩ ::
            ⟨"SEMICOLON", ";", none, 1, 7, none⟩ :: simpleGlobalDecls name m) =
          declLoop f (simpleGlobalDecls name m) := rfl
      rw [hstep]
      exact ih f (Nat.lt_of_succ_lt_succ hf)

/-- C3 amended: `validate_program_structure` accepts every non-empty
stream that consists solely of well-formed global declarations
`dear <identifier> ;` with no `love` token, returning the success
verdict with the globals-only message (the claim expected a failure;
error.py line 54 deliberately succeeds there). -/
theorem claim3_globals_only_success (n : Nat) (name : String) (hn : 0 < n)
    (hname : name ∉ (["(", ")", "[", "]", "\x7b", "\x7d", "love"] : List String)) :
    validateProgramStructure (simpleGlobalDecls name n) =
      verdictSuccess "Structure looks valid (globals only)." := by
  obtain ⟨m, rfl⟩ : ∃ m, n = m + 1 := ⟨n - 1, by omega⟩
  have hne : (simpleGlobalDecls name (m + 1)).isEmpty = false := rfl
  have hbal : checkBalancedDelimiters (simpleGlobalDecls name (m + 1)) = none := by
    unfold checkBalancedDelimiters
    rw [simpleGlobalDecls_balanced name (m + 1) hname]
    rfl
  have hloop := simpleGlobalDecls_declLoop name (m + 1)
    ((simpleGlobalDecls name (m + 1)).length + 1)
    (by rw [simpleGlobalDecls_length]; omega)
  simp only [validateProgramStructure, simpleGlobalDecls_filter, hne, hbal, hloop,
    Bool.false_eq_true, if_false, show simpleGlobalDecls name 0 = [] from rfl]
  rfl

/-- Witness for C3 at two declarations named `g`. -/
theorem claim3_globals_only_success_witness :
    validateProgramStructure (simpleGlobalDecls "g" 2) =
      verdictSuccess "Structure looks valid (globals only)." :=
  claim3_globals_only_success 2 "g" (by decide) (by decide)

theorem scanCollectFuel_eof (fuel : Nat) :
    ∀ st acc errs out, (∀ t ∈ acc, t.kind ≠ "EOF") →
      scanCollectFuel fuel st acc errs = some out → endsWithUniqueEOF out.1 := by
  induction fuel with
  | zero => intro st acc errs out h heq; exact Option.noConfusion heq
  | succ f ih =>
    intro st acc errs out h heq
    unfold scanCollectFuel at heq
    dsimp only at heq
    split at heq
    · injection heq with hout
      rw [← hout]
      exact ⟨acc, eofToken st, rfl, rfl, h⟩
    · have hkinds := scanSingle_toks_ne_eof (advance1 st).1 (advance1 st).2 st.line st.column
      split at heq
      · rename_i st2 new hstep
        refine ih st2 (acc ++ new) errs out ?_ heq
        intro t ht
        rcases List.mem_append.1 ht with h1 | h1
        · exact h t h1
        · rw [hstep] at hkinds
          exact hkinds t h1
      · rename_i msg st2 new hstep
        refine ih (recoverAfterError st2) (acc ++ new) (errs ++ [msg]) out ?_ heq
        intro t ht
        rcases List.mem_append.1 ht with h1 | h1
        · exact h t h1
        · rw [hstep] at hkinds
          exact hkinds t h1

/-- C2: for every source, the token vector of the fail-fast scan (when
it returns without raising) and the token vector of the error-collecting
scan both end with exactly one token of kind `EOF`, with no token of
kind `EOF` at any earlier position. -/
theorem claim2_eof_sentinel (src : List Char) :
    (∀ ts, scanTokens src = .ok ts → endsWithUniqueEOF ts) ∧
    endsWithUniqueEOF (scanTokensCollectErrors src).1 := by
  constructor
  · intro ts hts
    unfold scanTokens at hts
    cases hfuel : scanTokensFuel (src.length + 1) (initState src) [] with
    | none =>
      rw [hfuel] at hts
      exact ScanOut.noConfusion hts
    | some out =>
      rw [hfuel] at hts
      simp only [Option.getD_some] at hts
      subst hts
      exact scanTokensFuel_eof _ _ _ _ (by simp) hfuel
  · unfold scanTokensCollectErrors
    cases hfuel : scanCollectFuel (src.length + 1) (initState src) [] [] with
    | none =>
      have := scanCollectFuel_isSome (src.length + 1) (initState src) [] []
        (Nat.lt_succ_self _)
      rw [hfuel] at this
      exact absurd this (by simp)
    | some out =>
      simp only [Option.getD_some]
      exact scanCollectFuel_eof _ _ _ _ _ (by simp) hfuel

/-- Witness for C2 at the one-character source `x`. -/
theorem claim2_eof_sentinel_witness :
    endsWithUniqueEOF
      [{ kind := "IDENTIFIER", lexeme := "x", line := 1, column := 1 },
       { kind := "EOF", lexeme := "", line := 1, column := 2 }] :=
  (claim2_eof_sentinel "x".data).1 _ rfl

/-! ## C10: the numeral is appended before the invalid-delimiter error -/

theorem numberToken_err_inv {ch : Char} {st1 : LexState} {l c : Nat} {msg : String}
    {st' : LexState} {toks : List Token}
    (h : numberToken ch st1 l c = .err msg st' toks)
    (hfollow : ¬ identFollowChars.contains (peekCh st') = true) :
    ∃ tok, toks = [tok] ∧ (tok.kind = "INT_LITERAL" ∨ tok.kind = "FLOAT_LITERAL") ∧
      tok.literal = some tok.lexeme := by
  unfold numberToken at h
  dsimp only at h
  split at h <;>
    (unfold finishNumber at h
     dsimp only at h
     repeat' split at h)
  all_goals first
    | exact Step.noConfusion h
    | (injection h with h1 h2 h3
       subst h3
       exact ⟨_, rfl, Or.inr rfl, rfl⟩)
    | (injection h with h1 h2 h3
       subst h3
       exact ⟨_, rfl, Or.inl rfl, rfl⟩)
    | (injection h with h1 h2 h3
       subst h2
       simp_all)

theorem scanCollectFuel_extends (fuel : Nat) :
    ∀ st acc errs out, scanCollectFuel fuel st acc errs = some out →
      ∃ more, out.1 = acc ++ more := by
  induction fuel with
  | zero => intro st acc errs out heq; exact Option.noConfusion heq
  | succ f ih =>
    intro st acc errs out heq
    unfold scanCollectFuel at heq
    dsimp only at heq
    split at heq
    · injection heq with hout
      exact ⟨[eofToken st], by rw [← hout]⟩
    · split at heq
      · rename_i st2 new hstep
        obtain ⟨more, hm⟩ := ih _ _ _ _ heq
        exact ⟨new ++ more, by rw [hm, List.append_assoc]⟩
      · rename_i msg st2 new hstep
        obtain ⟨more, hm⟩ := ih _ _ _ _ heq
        exact ⟨new ++ more, by rw [hm, List.append_assoc]⟩

/-- C10: whenever `_number_token` raises with the character after the
numeral outside the identifier follow-union, it has appended the
`INT_LITERAL` or `FLOAT_LITERAL` token (with the raw lexeme as its
`literal`) to the partial token list just before raising; and the
collect-errors loop only ever extends the token list it carries, so that
token also appears in the vector `scan_tokens_collect_errors` returns. -/
theorem claim10_numeral_appended_before_error :
    (∀ (ch : Char) (st1 : LexState) (l c : Nat),
        isErrStep (numberToken ch st1 l c) = true →
        ¬ identFollowChars.contains (peekCh (numberToken ch st1 l c).st) = true →
        ∃ tok, (numberToken ch st1 l c).toks = [tok] ∧
          (tok.kind = "INT_LITERAL" ∨ tok.kind = "FLOAT_LITERAL") ∧
          tok.literal = some tok.lexeme) ∧
    (∀ (fuel : Nat) (st : LexState) (acc : List Token) (errs : List String)
        (out : List Token × List String),
        scanCollectFuel fuel st acc errs = some out → ∃ more, out.1 = acc ++ more) := by
  constructor
  · intro ch st1 l c herr hfollow
    cases hres : numberToken ch st1 l c with
    | ok st2 new =>
      rw [hres] at herr
      exact absurd herr (by simp [isErrStep])
    | err msg st2 toks =>
      rw [hres] at hfollow
      exact numberToken_err_inv hres hfollow
  · exact fun fuel => scanCollectFuel_extends fuel

/-- Witness for C10: the float `1.50` followed by `@`, and a one-step
collect run from a carried token. -/
theorem claim10_numeral_appended_witness :
    (∃ tok, (numberToken '1' ⟨".50@".data, 1, 2⟩ 1 1).toks = [tok] ∧
      (tok.kind = "INT_LITERAL" ∨ tok.kind = "FLOAT_LITERAL") ∧
      tok.literal = some tok.lexeme) ∧
    (∃ more, (([⟨"FLOAT_LITERAL", "1.50", some "1.50", 1, 1, none⟩,
        ⟨"EOF", "", none, 1, 1, none⟩] : List Token), ([] : List String)).1 =
      ([⟨"FLOAT_LITERAL", "1.50", some "1.50", 1, 1, none⟩] : List Token) ++ more) :=
  ⟨claim10_numeral_appended_before_error.1 '1' ⟨".50@".data, 1, 2⟩ 1 1 rfl (by decide),
   claim10_numeral_appended_before_error.2 1 ⟨[], 1, 1⟩
     [⟨"FLOAT_LITERAL", "1.50", some "1.50", 1, 1, none⟩] [] _ rfl⟩

/-! ## C5: normalized float literals -/

theorem floatNormFracPart_length_le (lex : List Char) :
    (floatNormFracPart lex).length ≤ 6 := by
  unfold floatNormFracPart
  dsimp only
  split
  · simp
  · refine le_trans (le_of_eq (List.length_take _ _)) ?_
    exact min_le_left _ _

/-- The rational value of a normalized float literal. -/
def floatValQ (lexeme : String) : ℚ :=
  natOfDigits (floatNormIntPart lexeme.data) +
    natOfDigits (floatNormFracPart lexeme.data) / 10 ^ (floatNormFracPart lexeme.data).length

theorem floatVal6_le_q {lex : String} (h : floatVal6 lex.data ≤ 9999999999999999) :
    floatValQ lex ≤ (9999999999999999 : ℚ) / 1000000 := by
  unfold floatValQ
  have hk := floatNormFracPart_length_le lex.data
  rw [le_div_iff₀ (by norm_num)]
  have hpow : ((10 : ℚ)) ^ (floatNormFracPart lex.data).length ≠ 0 := by positivity
  have h6 : (1000000 : ℚ) =
      10 ^ (floatNormFracPart lex.data).length *
        10 ^ (6 - (floatNormFracPart lex.data).length) := by
    rw [← pow_add, Nat.add_sub_cancel' hk]
    norm_num
  have hval : ((natOfDigits (floatNormIntPart lex.data) : ℚ) +
        natOfDigits (floatNormFracPart lex.data) /
          10 ^ (floatNormFracPart lex.data).length) * 1000000 =
      ((floatVal6 lex.data : ℕ) : ℚ) := by
    unfold floatVal6
    push_cast
    rw [add_mul, h6]
    congr 1
    rw [← mul_assoc, div_mul_cancel₀ _ hpow]
  rw [hval]
  exact_mod_cast h

/-- The property C5 states of a `FLOAT_LITERAL` token: normalized
`literal`, digit bounds on the normalized form, and the value bound. -/
def floatTokenSpec (t : Token) : Prop :=
  t.literal = some (floatNormalize t.lexeme) ∧
  (floatNormIntPart t.lexeme.data).length ≤ 10 ∧
  (floatNormIntPart t.lexeme.data).length + (floatNormFracPart t.lexeme.data).length ≤ 16 ∧
  floatValQ t.lexeme ≤ (9999999999999999 : ℚ) / 1000000

theorem finishNumber_ok_float {kind : String} {lex : List Char} {st2 : LexState}
    {l c : Nat} {st' : LexState} {new : List Token}
    (h : finishNumber kind lex st2 l c = .ok st' new) :
    ∀ t ∈ new, t.kind = "FLOAT_LITERAL" → floatTokenSpec t := by
  unfold finishNumber at h
  dsimp only at h
  repeat' split at h
  all_goals first
    | exact Step.noConfusion h
    | (intro t ht hk
       injection h with h1 h2
       subst h2
       simp only [List.mem_singleton] at ht
       subst ht
       first
         | (unfold floatTokenSpec
            refine ⟨rfl, ?_, ?_, ?_⟩ <;> dsimp only <;>
             first
               | omega
               | exact floatVal6_le_q (by dsimp only; omega))
         | simp_all)

theorem scanSingle_float_spec (ch : Char) (st1 : LexState) (sl sc : Nat)
    {st2 : LexState} {new : List Token}
    (h : scanSingle ch st1 sl sc = .ok st2 new) :
    ∀ t ∈ new, t.kind = "FLOAT_LITERAL" → floatTokenSpec t := by
  unfold scanSingle at h
  dsimp only at h
  split at h
  · injection h with h1 h2
    subst h2
    simp
  · split at h
    · injection h with h1 h2
      subst h2
      intro t ht hk
      simp only [List.mem_singleton] at ht
      subst ht
      simp at hk
    · split at h
      · injection h with h1 h2
        subst h2
        simp
      · split at h
        · split at h
          · injection h with h1 h2
            subst h2
            simp
          · exact Step.noConfusion h
        · split at h
          · -- string token
            intro t ht hk
            have := stringToken_toks_kind ch st1 sl sc t (by rw [h]; exact ht)
            rw [this] at hk
            simp at hk
          · split at h
            · -- number token
              intro t ht hk
              unfold numberToken at h
              dsimp only at h
              split at h
              · exact finishNumber_ok_float h t ht hk
              · exact finishNumber_ok_float h t ht hk
            · split at h
              · -- identifier token
                intro t ht hk
                rcases identifierToken_kinds ch st1 sl sc t (by rw [h]; exact ht)
                  with h1 | ⟨cp, h1⟩
                · rw [h1] at hk
                  simp at hk
                · have hmem := reservedWords_kind_mem h1
                  rw [hk] at hmem
                  dsimp only at hmem
                  exact absurd hmem (by decide)
              · split at h
                · split at h
                  · exact Step.noConfusion h
                  · injection h with h1 h2
                    subst h2
                    intro t ht hk
                    simp only [List.mem_singleton] at ht
                    subst ht
                    rename_i kind heq _ _
                    exact absurd hk (by exact (multiCharOperators_kind heq).2)
                · split at h
                  · split at h
                    · exact Step.noConfusion h
                    · injection h with h1 h2
                      subst h2
                      intro t ht hk
                      simp only [List.mem_singleton] at ht
                      subst ht
                      rename_i kind heq _ _
                      exact absurd hk (by exact (singleCharTokens_kind heq).2)
                  · exact Step.noConfusion h

theorem scanTokensFuel_float (fuel : Nat) :
    ∀ st acc ts, (∀ t ∈ acc, t.kind = "FLOAT_LITERAL" → floatTokenSpec t) →
      scanTokensFuel fuel st acc = some (.ok ts) →
      ∀ t ∈ ts, t.kind = "FLOAT_LITERAL" → floatTokenSpec t := by
  induction fuel with
  | zero => intro st acc ts h heq; exact Option.noConfusion heq
  | succ f ih =>
    intro st acc ts h heq
    unfold scanTokensFuel at heq
    dsimp only at heq
    split at heq
    · injection heq with hts
      injection hts with hts2
      subst hts2
      intro t ht hk
      rcases List.mem_append.1 ht with h1 | h1
      · exact h t h1 hk
      · simp only [List.mem_singleton] at h1
        subst h1
        simp [eofToken] at hk
    · split at heq
      · rename_i st2 new hstep
        refine ih st2 (acc ++ new) ts ?_ heq
        intro t ht
        rcases List.mem_append.1 ht with h1 | h1
        · exact h t h1
        · exact scanSingle_float_spec _ _ _ _ hstep t h1
      · injection heq with hts
        exact ScanOut.noConfusion hts

/-- C5 amended: every `FLOAT_LITERAL` token in the vector of a
successful fail-fast scan carries the normalized literal (leading zeros
of the integer part stripped, trailing zeros of the fractional part
stripped then truncated to six digits) and obeys the digit-count and
value bounds.  (The tokens collect mode appends on the
invalid-delimiter error path keep the raw lexeme instead - see the
counterexample - so the claim holds for the tokens of a scan that
returns without raising.) -/
theorem claim5_float_literal_normalized (src : List Char) (ts : List Token)
    (h : scanTokens src = .ok ts) :
    ∀ t ∈ ts, t.kind = "FLOAT_LITERAL" → floatTokenSpec t := by
  unfold scanTokens at h
  cases hfuel : scanTokensFuel (src.length + 1) (initState src) [] with
  | none =>
    rw [hfuel] at h
    exact ScanOut.noConfusion h
  | some out =>
    rw [hfuel] at h
    simp only [Option.getD_some] at h
    subst h
    exact scanTokensFuel_float _ _ _ _ (by simp) hfuel

/-- Witness for C5 at the source `1.50;`. -/
theorem claim5_float_literal_normalized_witness :
    floatTokenSpec ⟨"FLOAT_LITERAL", "1.50", some "1.5", 1, 1, none⟩ :=
  claim5_float_literal_normalized "1.50;".data
    [⟨"FLOAT_LITERAL", "1.50", some "1.5", 1, 1, none⟩,
     ⟨"SEMICOLON", ";", none, 1, 5, none⟩,
     ⟨"EOF", "", none, 1, 6, none⟩] rfl
    ⟨"FLOAT_LITERAL", "1.50", some "1.5", 1, 1, none⟩ (List.mem_cons_self _ _) rfl

/-! ## C4: follow-set validation of reserved words and operators -/

theorem reservedWords_followsRaw {w : String} {e : String × String}
    (h : reservedWords w = some e) : (reservedWordFollowsRaw w).isSome = true := by
  unfold reservedWords at h
  split at h <;> first
    | exact Option.noConfusion h
    | decide

/-- The operators `_validate_symbol_follow` actually checks: the ones
with an entry in `reserved_symbol_follows` that are not exempted. -/
def validatedOperators : List String :=
  ["+", "-", "*", "/", "%", "!", "+=", "-=", "*=", "/=", "%=", "++", "--"]

theorem validatedOperators_cases {s : String} (h : s ∈ validatedOperators) :
    s = "+" ∨ s = "-" ∨ s = "*" ∨ s = "/" ∨ s = "%" ∨ s = "!" ∨ s = "+=" ∨ s = "-=" ∨
    s = "*=" ∨ s = "/=" ∨ s = "%=" ∨ s = "++" ∨ s = "--" := by
  simp only [validatedOperators, List.mem_cons, List.not_mem_nil, or_false] at h
  exact h

theorem validateSymbolFollow_inv {lexeme : String} {st : LexState} {l c : Nat}
    (h : validateSymbolFollow lexeme st l c = none)
    (h1 : ¬ lexeme = "=") (h2 : ¬ lexeme = ";")
    (h3 : ¬ ([">", "<", ">=", "<=", "==", "!=", ">>", "<<", "&&", "||"].contains lexeme
      = true))
    (h4 : ¬ (["(", ")", "[", "]", "\x7b", "\x7d"].contains lexeme = true))
    {allowed : List Char}
    (h5 : expandedReservedSymbolFollows lexeme = some allowed)
    (h6 : ¬ allowed = []) :
    peekNonWs st = '\x00' ∨ allowed.contains (peekNonWs st) = true := by
  unfold validateSymbolFollow at h
  rw [if_neg h1, if_neg h2, if_neg h3, if_neg h4, h5] at h
  dsimp only at h
  rw [if_neg h6] at h
  by_cases h7 : peekNonWs st = '\x00'
  · exact Or.inl h7
  · rw [if_neg h7] at h
    by_cases h8 : allowed.contains (peekNonWs st) = true
    · exact Or.inr h8
    · rw [if_neg h8] at h
      exact Option.noConfusion h

theorem validateSymbolFollow_validated {lexeme : String} {st : LexState} {l c : Nat}
    (hmem : lexeme ∈ validatedOperators)
    (h : validateSymbolFollow lexeme st l c = none) :
    ∃ fs, expandedReservedSymbolFollows lexeme = some fs ∧
      (peekNonWs st = '\x00' ∨ fs.contains (peekNonWs st) = true) := by
  rcases validatedOperators_cases hmem with rfl | rfl | rfl | rfl | rfl | rfl | rfl | rfl
    | rfl | rfl | rfl | rfl | rfl <;>
    exact ⟨_, rfl,
      validateSymbolFollow_inv h (by decide) (by decide) (by decide) (by decide) rfl
        (by decide)⟩

theorem not_some_of_none {α : Type} {x : Option α} (h : x = none) :
    ¬ ∃ e, x = some e := by
  rintro ⟨e, he⟩
  rw [h] at he
  exact Option.noConfusion he

theorem digit_not_alpha {c : Char} (h : isDigitCh c = true) : isAlphaCh c = false := by
  simp only [isDigitCh, digitChars] at h
  simp at h
  rcases h with rfl | rfl | rfl | rfl | rfl | rfl | rfl | rfl | rfl | rfl <;> decide

theorem validatedOperators_head {ch : Char} {tail : List Char}
    (hmem : (⟨ch :: tail⟩ : String) ∈ validatedOperators) :
    isAlphaCh ch = false ∧ isDigitCh ch = false ∧ ¬ ch = '"' := by
  rcases validatedOperators_cases hmem with h | h | h | h | h | h | h | h | h | h | h
    | h | h <;>
    (have hd := congrArg String.data h
     injection hd with h1 h2
     subst h1
     decide)

theorem reservedWords_head {ch : Char} {tail : List Char} {e : String × String}
    (h : reservedWords (⟨ch :: tail⟩ : String) = some e) : isAlphaCh ch = true := by
  unfold reservedWords at h
  split at h <;> first
    | exact Option.noConfusion h
    | (rename_i heq
       have hd := congrArg String.data heq
       injection hd with h1 h2
       subst h1
       decide)

theorem multiCharOperators_not_reserved {s k : String}
    (h : multiCharOperators s = some k) : reservedWords s = none := by
  unfold multiCharOperators at h
  split at h <;> first
    | exact Option.noConfusion h
    | decide

theorem singleCharTokens_not_reserved {ch : Char} {k : String}
    (h : singleCharTokens ch = some k) : reservedWords (String.singleton ch) = none := by
  unfold singleCharTokens at h
  split at h <;> first
    | exact Option.noConfusion h
    | decide

theorem stringToken_ok_lexeme {quote : Char} {st1 : LexState} {l c : Nat}
    {st2 : LexState} {new : List Token}
    (h : stringToken quote st1 l c = .ok st2 new) :
    ∀ t ∈ new, ∃ rest, t.lexeme = (⟨'"' :: rest⟩ : String) := by
  unfold stringToken at h
  dsimp only at h
  split at h
  · exact Step.noConfusion h
  · rename_i hquote
    rw [Decidable.not_not] at hquote
    subst hquote
    split at h <;> try exact Step.noConfusion h
    injection h with h1 h2
    subst h2
    intro t ht
    simp only [List.mem_singleton] at ht
    subst ht
    exact ⟨_, rfl⟩

theorem finishNumber_ok_lexeme {kind : String} {lex : List Char} {st2 : LexState}
    {l c : Nat} {st' : LexState} {new : List Token}
    (h : finishNumber kind lex st2 l c = .ok st' new) :
    ∀ t ∈ new, t.lexeme = (⟨lex⟩ : String) := by
  unfold finishNumber at h
  dsimp only at h
  repeat' split at h
  all_goals first
    | exact Step.noConfusion h
    | (injection h with h1 h2
       subst h2
       intro t ht
       simp only [List.mem_singleton] at ht
       subst ht
       rfl)

theorem numberToken_ok_lexeme {ch : Char} {st1 : LexState} {l c : Nat}
    {st2 : LexState} {new : List Token}
    (h : numberToken ch st1 l c = .ok st2 new) :
    ∀ t ∈ new, ∃ rest, t.lexeme = (⟨ch :: rest⟩ : String) := by
  unfold numberToken at h
  dsimp only at h
  split at h <;>
    exact fun t ht => ⟨_, finishNumber_ok_lexeme h t ht⟩

theorem identifierToken_ok_lexeme {ch : Char} {st1 : LexState} {l c : Nat}
    {st2 : LexState} {new : List Token}
    (h : identifierToken ch st1 l c = .ok st2 new) :
    ∀ t ∈ new, ∃ rest, t.lexeme = (⟨ch :: rest⟩ : String) := by
  unfold identifierToken at h
  dsimp only at h
  repeat' split at h
  all_goals first
    | exact Step.noConfusion h
    | (injection h with h1 h2
       subst h2
       intro t ht
       simp only [List.mem_singleton] at ht
       subst ht
       exact ⟨_, rfl⟩)

theorem identifierToken_ok_reserved_follow {ch : Char} {st1 : LexState} {l c : Nat}
    {st2 : LexState} {new : List Token}
    (h : identifierToken ch st1 l c = .ok st2 new) :
    ∀ t ∈ new, (∃ e, reservedWords t.lexeme = some e) →
      ((expandedReservedWordFollows t.lexeme).getD identFollowChars).contains
        (peekCh st2) = true := by
  unfold identifierToken at h
  dsimp only at h
  repeat' split at h
  all_goals first
    | exact Step.noConfusion h
    | (injection h with h1 h2
       subst h1
       subst h2
       intro t ht he
       simp only [List.mem_singleton] at ht
       subst ht
       first
         | (rename_i hnone _ _
            exact absurd he (not_some_of_none hnone))
         | (rename_i hfollow _
            simp at hfollow
            simpa using hfollow))

/-- C4 amended: every reserved-word token a scanning step emits is
followed (at the cursor right after its lexeme) by end-of-source or a
character of its entry in `expanded_reserved_word_follows`; and every
emitted operator token that `_validate_symbol_follow` actually checks
(the operators of `validatedOperators`; the source exempts `=`, `;`,
the relational/equality/logical/shift operators and all brackets) is
followed, after skipping inline whitespace, by end-of-source or a
character of its entry in `expanded_reserved_symbol_follows`. -/
theorem claim4_follow_sets (ch : Char) (st1 : LexState) (sl sc : Nat)
    (st2 : LexState) (tok : Token)
    (h : scanSingle ch st1 sl sc = .ok st2 [tok]) :
    ((∃ e, reservedWords tok.lexeme = some e) →
      ∃ fs, expandedReservedWordFollows tok.lexeme = some fs ∧
        (peekCh st2 = '\x00' ∨ fs.contains (peekCh st2) = true)) ∧
    (tok.lexeme ∈ validatedOperators →
      ∃ fs, expandedReservedSymbolFollows tok.lexeme = some fs ∧
        (peekNonWs st2 = '\x00' ∨ fs.contains (peekNonWs st2) = true)) := by
  have hself : tok ∈ [tok] := List.mem_singleton.2 rfl
  unfold scanSingle at h
  dsimp only at h
  split at h
  · injection h with h1 h2
    exact List.noConfusion h2
  · split at h
    · -- newline token
      injection h with h1 h2
      injection h2 with h3 h4
      subst h3
      exact ⟨fun he => absurd he
               (not_some_of_none (show reservedWords "\\n" = none by decide)),
             fun hmem => absurd hmem
               (show ("\\n" : String) ∉ validatedOperators by decide)⟩
    · split at h
      · injection h with h1 h2
        exact List.noConfusion h2
      · split at h
        · split at h
          · injection h with h1 h2
            exact List.noConfusion h2
          · exact Step.noConfusion h
        · split at h
          · -- string token
            obtain ⟨rest, hlex⟩ := stringToken_ok_lexeme h tok hself
            constructor
            · intro he
              rw [hlex] at he
              obtain ⟨e, he⟩ := he
              exact absurd (reservedWords_head he) (by decide)
            · intro hmem
              rw [hlex] at hmem
              exact absurd rfl (validatedOperators_head hmem).2.2
          · split at h
            · -- number token
              rename_i hdigit
              obtain ⟨rest, hlex⟩ := numberToken_ok_lexeme h tok hself
              constructor
              · intro he
                rw [hlex] at he
                obtain ⟨e, he⟩ := he
                have := reservedWords_head he
                rw [digit_not_alpha hdigit] at this
                exact Bool.noConfusion this
              · intro hmem
                rw [hlex] at hmem
                have := (validatedOperators_head hmem).2.1
                rw [hdigit] at this
                exact Bool.noConfusion this
            · split at h
              · -- identifier token
                rename_i halpha
                obtain ⟨rest, hlex⟩ := identifierToken_ok_lexeme h tok hself
                constructor
                · intro he
                  obtain ⟨e, hres⟩ := he
                  have hraw := reservedWords_followsRaw hres
                  cases hr : reservedWordFollowsRaw tok.lexeme with
                  | none => rw [hr] at hraw; exact Bool.noConfusion hraw
                  | some r =>
                    have hexp : expandedReservedWordFollows tok.lexeme =
                        some (expandFollow r) := by
                      unfold expandedReservedWordFollows
                      rw [hr]
                      rfl
                    refine ⟨expandFollow r, hexp, Or.inr ?_⟩
                    have hc := identifierToken_ok_reserved_follow h tok hself ⟨e, hres⟩
                    rw [hexp] at hc
                    simpa using hc
                · intro hmem
                  rw [hlex] at hmem
                  have := (validatedOperators_head hmem).1
                  rw [halpha] at this
                  exact Bool.noConfusion this
              · split at h
                · -- two-character operator
                  rename_i kind heqop
                  split at h
                  · exact Step.noConfusion h
                  · rename_i hval
                    injection h with h1 h2
                    injection h2 with h3 h4
                    subst h3
                    subst h1
                    constructor
                    · intro he
                      exact absurd he
                        (not_some_of_none (multiCharOperators_not_reserved heqop))
                    · intro hmem
                      exact validateSymbolFollow_validated hmem hval
                · split at h
                  · -- single-character token
                    rename_i kind heqop
                    split at h
                    · exact Step.noConfusion h
                    · rename_i hval
                      injection h with h1 h2
                      injection h2 with h3 h4
                      subst h3
                      subst h1
                      constructor
                      · intro he
                        exact absurd he
                          (not_some_of_none (singleCharTokens_not_reserved heqop))
                      · intro hmem
                        exact validateSymbolFollow_validated hmem hval
                  · exact Step.noConfusion h

/-- C4 counterexample: the fail-fast scan of `=;` succeeds and emits the
`=` operator token at column 1, whose following character (the one after
its last scanned character, here also the first non-whitespace
character) is `;`; yet `;` is not in the declared follow set of `=` in
`expanded_reserved_symbol_follows`.  The source never validates `=`
(it is exempted in `_validate_symbol_follow`), so the claimed invariant
fails for exempt operators. -/
theorem claim4_exempt_counterexample :
    scanTokens "=;".data = ScanOut.ok
      [⟨"ASSIGN", "=", none, 1, 1, none⟩, ⟨"SEMICOLON", ";", none, 1, 2, none⟩,
       ⟨"EOF", "", none, 1, 3, none⟩] ∧
    "=;".data.getD 1 '\x00' = ';' ∧
    (expandedReservedSymbolFollows "=").map (fun fs => fs.contains ';') = some false :=
  ⟨rfl, rfl, rfl⟩

/-- Witness for C4: the reserved word `love` followed by a space, and
the validated operator `+` followed (after a space) by a letter. -/
theorem claim4_follow_sets_witness :
    (∃ fs, expandedReservedWordFollows
        (Token.lexeme ⟨"KEYWORD_MAIN", "love", none, 1, 1, some "love"⟩) = some fs ∧
      (peekCh ⟨" x".data, 1, 5⟩ = '\x00' ∨
        fs.contains (peekCh ⟨" x".data, 1, 5⟩) = true)) ∧
    (∃ fs, expandedReservedSymbolFollows
        (Token.lexeme ⟨"PLUS", "+", none, 1, 1, none⟩) = some fs ∧
      (peekNonWs ⟨" x".data, 1, 2⟩ = '\x00' ∨
        fs.contains (peekNonWs ⟨" x".data, 1, 2⟩) = true)) :=
  ⟨(claim4_follow_sets 'l' ⟨"ove x".data, 1, 2⟩ 1 1 ⟨" x".data, 1, 5⟩
      ⟨"KEYWORD_MAIN", "love", none, 1, 1, some "love"⟩ rfl).1 ⟨_, rfl⟩,
   (claim4_follow_sets '+' ⟨" x".data, 1, 2⟩ 1 1 ⟨" x".data, 1, 2⟩
      ⟨"PLUS", "+", none, 1, 1, none⟩ rfl).2 (by decide)⟩
